import Mathlib

/-!
Mining investment calculator: a shallow embedding of the class
`InvestmentCalculator` of `assets/js/investment-calculator.js`.

Number model.  JavaScript numbers are modelled by `JSNum`: a finite value carried as an exact
rational, the two infinities, and NaN.  Two abstractions are made, both stated
here once:

* finite arithmetic is exact (no rounding to binary64, no overflow to an
  infinity);
* the two zeros are identified (`-0` is `0`), so a division of a non-zero
  finite value by zero takes the sign of its numerator.

Everything else follows IEEE 754 as JavaScript applies it: `x / 0` is an
infinity for `x` non-zero and NaN for `x` zero, `∞ - ∞`, `0 * ∞` and `∞ / ∞`
are NaN, NaN is absorbing, and every comparison with NaN is false.
-/

namespace Mining

/-- A JavaScript number: finite (exact rational value), `Infinity`, `-Infinity` or `NaN`. -/
inductive JSNum where
  | fin (q : ℚ)
  | posInf
  | negInf
  | nan
  deriving DecidableEq

namespace JSNum

/-- The infinity of the given sign. -/
def signedInf (positive : Bool) : JSNum :=
  if positive then posInf else negInf

/-- Unary minus. -/
def neg : JSNum → JSNum
  | fin a => fin (-a)
  | posInf => negInf
  | negInf => posInf
  | nan => nan

/-- The `+` operator on numbers. -/
def add : JSNum → JSNum → JSNum
  | fin a, fin b => fin (a + b)
  | fin _, posInf => posInf
  | fin _, negInf => negInf
  | posInf, fin _ => posInf
  | negInf, fin _ => negInf
  | posInf, posInf => posInf
  | negInf, negInf => negInf
  | posInf, negInf => nan
  | negInf, posInf => nan
  | nan, _ => nan
  | _, nan => nan

/-- The binary `-` operator: `a - b` is `a + (-b)`. -/
def sub (a b : JSNum) : JSNum :=
  add a (neg b)

/-- The `*` operator on numbers. -/
def mul : JSNum → JSNum → JSNum
  | fin a, fin b => fin (a * b)
  | fin a, posInf => if a = 0 then nan else signedInf (decide (0 < a))
  | fin a, negInf => if a = 0 then nan else signedInf (decide (a < 0))
  | posInf, fin b => if b = 0 then nan else signedInf (decide (0 < b))
  | negInf, fin b => if b = 0 then nan else signedInf (decide (b < 0))
  | posInf, posInf => posInf
  | negInf, negInf => posInf
  | posInf, negInf => negInf
  | negInf, posInf => negInf
  | nan, _ => nan
  | _, nan => nan

/-- The `/` operator on numbers. -/
def div : JSNum → JSNum → JSNum
  | fin a, fin b =>
      if b = 0 then (if a = 0 then nan else signedInf (decide (0 < a))) else fin (a / b)
  | fin _, posInf => fin 0
  | fin _, negInf => fin 0
  | posInf, fin b => signedInf (decide (0 ≤ b))
  | negInf, fin b => signedInf (decide (b < 0))
  | posInf, posInf => nan
  | posInf, negInf => nan
  | negInf, posInf => nan
  | negInf, negInf => nan
  | nan, _ => nan
  | _, nan => nan

instance : Neg JSNum := ⟨neg⟩
instance : Add JSNum := ⟨add⟩
instance : Sub JSNum := ⟨sub⟩
instance : Mul JSNum := ⟨mul⟩
instance : Div JSNum := ⟨div⟩
instance : OfNat JSNum n := ⟨fin (OfNat.ofNat n)⟩
instance : OfScientific JSNum := ⟨fun m s e => fin (OfScientific.ofScientific m s e)⟩

/-- The `>` operator: false as soon as one side is NaN. -/
def gt : JSNum → JSNum → Bool
  | fin a, fin b => decide (b < a)
  | posInf, fin _ => true
  | posInf, negInf => true
  | fin _, negInf => true
  | _, _ => false

/-- The `<` operator. -/
def lt (a b : JSNum) : Bool :=
  gt b a

/-- The `>=` operator: false as soon as one side is NaN. -/
def ge : JSNum → JSNum → Bool
  | fin a, fin b => decide (b ≤ a)
  | posInf, fin _ => true
  | posInf, posInf => true
  | posInf, negInf => true
  | fin _, negInf => true
  | negInf, negInf => true
  | _, _ => false

/-- The `<=` operator. -/
def le (a b : JSNum) : Bool :=
  ge b a

/-- The function `Math.ceil`: the least integer not below a finite value; the
infinities and NaN are returned unchanged. -/
def ceil : JSNum → JSNum
  | fin a => fin (⌈a⌉ : ℤ)
  | x => x

/-- The test `Number.isFinite`. -/
def isFinite : JSNum → Bool
  | fin _ => true
  | _ => false

/-- The global function `isNaN` on a number. -/
def isNaN : JSNum → Bool
  | nan => true
  | _ => false

/-- Truthiness of a number, as tested by `&&` and `if`: every number except zero
and NaN is truthy. -/
def truthy : JSNum → Bool
  | fin a => decide (a ≠ 0)
  | posInf => true
  | negInf => true
  | nan => false

/-- The function `Math.round`: the nearest integer, a tie going up; the infinities
and NaN are returned unchanged. -/
def round : JSNum → JSNum
  | fin a => fin (⌊a + 1 / 2⌋ : ℤ)
  | x => x

/-- The function `Math.abs`. -/
def abs : JSNum → JSNum
  | fin a => fin |a|
  | posInf => posInf
  | negInf => posInf
  | nan => nan

end JSNum

open JSNum

/-- The object `this.params` of the calculator. -/
structure Parameters where
  copperPriceLME : JSNum
  explorationAcres : JSNum
  explorationCostPerAcre : JSNum
  excavationCost : JSNum
  processingCost : JSNum
  plantCapacity : JSNum
  operatingDays : JSNum
  rawCopperPercentage : JSNum
  recoveryRate : JSNum
  finalProductPercentage : JSNum
  lmePayableRate : JSNum
  treatmentCharge : JSNum
  wasteDisposalCharge : JSNum
  totalInvestment : JSNum
  deriving DecidableEq

/-- The object returned by `calculateExplorationCosts`. -/
structure ExplorationCosts where
  mapping : JSNum
  drilling : JSNum
  labAnalysis : JSNum
  surveys : JSNum
  total : JSNum
  deriving DecidableEq

/-- The results object that `calculate` builds and hands to `updateDisplay`. -/
structure Result where
  annualProcessing : JSNum
  rawCopperInOre : JSNum
  recoveredCopper : JSNum
  concentrateProduced : JSNum
  payableCopper : JSNum
  explorationCosts : ExplorationCosts
  annualExcavationProcessingCosts : JSNum
  totalOperatingCosts : JSNum
  treatmentCharges : JSNum
  wasteDisposalCharges : JSNum
  totalTCWD : JSNum
  grossRevenue : JSNum
  netRevenue : JSNum
  netProfit : JSNum
  roi : JSNum
  paybackMonths : JSNum
  profitPerTonOre : JSNum
  profitPerTonCopper : JSNum
  year3Processing : JSNum
  year3RecoveredCopper : JSNum
  year3NetRevenue : JSNum
  year3OperatingCosts : JSNum
  year3NetProfit : JSNum
  deriving DecidableEq

/-- The instance state of the class `InvestmentCalculator`. -/
structure InvestmentCalculator where
  copperPrice : JSNum
  isLoading : Bool
  params : Parameters
  deriving DecidableEq

/-- Parameters all of whose fields are finite numbers, given by their exact values. -/
structure FiniteParameters where
  copperPriceLME : ℚ
  explorationAcres : ℚ
  explorationCostPerAcre : ℚ
  excavationCost : ℚ
  processingCost : ℚ
  plantCapacity : ℚ
  operatingDays : ℚ
  rawCopperPercentage : ℚ
  recoveryRate : ℚ
  finalProductPercentage : ℚ
  lmePayableRate : ℚ
  treatmentCharge : ℚ
  wasteDisposalCharge : ℚ
  totalInvestment : ℚ

/-- The `params` object holding the given finite values. -/
def FiniteParameters.toParameters (P : FiniteParameters) : Parameters where
  copperPriceLME := fin P.copperPriceLME
  explorationAcres := fin P.explorationAcres
  explorationCostPerAcre := fin P.explorationCostPerAcre
  excavationCost := fin P.excavationCost
  processingCost := fin P.processingCost
  plantCapacity := fin P.plantCapacity
  operatingDays := fin P.operatingDays
  rawCopperPercentage := fin P.rawCopperPercentage
  recoveryRate := fin P.recoveryRate
  finalProductPercentage := fin P.finalProductPercentage
  lmePayableRate := fin P.lmePayableRate
  treatmentCharge := fin P.treatmentCharge
  wasteDisposalCharge := fin P.wasteDisposalCharge
  totalInvestment := fin P.totalInvestment

/-- The property names of `this.params`, the values a `data-param` attribute can
name. -/
inductive ParamName where
  | copperPriceLME
  | explorationAcres
  | explorationCostPerAcre
  | excavationCost
  | processingCost
  | plantCapacity
  | operatingDays
  | rawCopperPercentage
  | recoveryRate
  | finalProductPercentage
  | lmePayableRate
  | treatmentCharge
  | wasteDisposalCharge
  | totalInvestment
  deriving DecidableEq

/-- The property read `params[name]`. -/
def Parameters.get (p : Parameters) : ParamName → JSNum
  | .copperPriceLME => p.copperPriceLME
  | .explorationAcres => p.explorationAcres
  | .explorationCostPerAcre => p.explorationCostPerAcre
  | .excavationCost => p.excavationCost
  | .processingCost => p.processingCost
  | .plantCapacity => p.plantCapacity
  | .operatingDays => p.operatingDays
  | .rawCopperPercentage => p.rawCopperPercentage
  | .recoveryRate => p.recoveryRate
  | .finalProductPercentage => p.finalProductPercentage
  | .lmePayableRate => p.lmePayableRate
  | .treatmentCharge => p.treatmentCharge
  | .wasteDisposalCharge => p.wasteDisposalCharge
  | .totalInvestment => p.totalInvestment

/-- The property write `params[name] = value`. -/
def Parameters.set (p : Parameters) (name : ParamName) (value : JSNum) : Parameters :=
  match name with
  | .copperPriceLME => { p with copperPriceLME := value }
  | .explorationAcres => { p with explorationAcres := value }
  | .explorationCostPerAcre => { p with explorationCostPerAcre := value }
  | .excavationCost => { p with excavationCost := value }
  | .processingCost => { p with processingCost := value }
  | .plantCapacity => { p with plantCapacity := value }
  | .operatingDays => { p with operatingDays := value }
  | .rawCopperPercentage => { p with rawCopperPercentage := value }
  | .recoveryRate => { p with recoveryRate := value }
  | .finalProductPercentage => { p with finalProductPercentage := value }
  | .lmePayableRate => { p with lmePayableRate := value }
  | .treatmentCharge => { p with treatmentCharge := value }
  | .wasteDisposalCharge => { p with wasteDisposalCharge := value }
  | .totalInvestment => { p with totalInvestment := value }

/-- What a handler reads from `e.target`: the parameter named by `dataset.param`
(`none` when the attribute is absent or names none of the fourteen parameters)
and the results of `parseFloat` on the `value`, `min` and `max` of the input
element (NaN when the text is empty or not a number). -/
structure FieldEvent where
  param : Option ParamName
  value : JSNum
  min : JSNum
  max : JSNum

/-- How one call of `fetchCopperPrice` turns out: the request or the decoding of
its answer throws, the response is not `ok`, or the response is `ok` and
`regularMarketPrice` converts to the number `q`. -/
inductive FetchOutcome where
  | threw
  | notOk
  | quote (q : JSNum)

/-- A user edit of an input field: an `input` event or a `blur` event. -/
inductive Edit where
  | input (e : FieldEvent)
  | blur (e : FieldEvent)

/-- The calculator together with what the page shows of its results:
`displayed` is the results object most recently handed to `updateDisplay`, `none`
before the first call of `calculate`. -/
structure Page where
  calculator : InvestmentCalculator
  displayed : Option Result

/-- The state of a `TestimonialsCarousel` that `goTo`, `next` and `prev` read and
write: the testimonials and the current index.  The container, the options and
the autoplay timer are not modelled. -/
structure TestimonialsCarousel (α : Type) where
  testimonials : List α
  currentIndex : ℤ

namespace InvestmentCalculator

/-- The default parameters assigned to `this.params` in the constructor. -/
def defaultParams : Parameters where
  copperPriceLME := 13200
  explorationAcres := 1500
  explorationCostPerAcre := 667
  excavationCost := 85
  processingCost := 50
  plantCapacity := 350
  operatingDays := 300
  rawCopperPercentage := 2.5
  recoveryRate := 88
  finalProductPercentage := 18
  lmePayableRate := 96.5
  treatmentCharge := 80
  wasteDisposalCharge := 5
  totalInvestment := 6600000

/-- The state set up by the constructor's assignments, before `init` runs. -/
def constructor : InvestmentCalculator where
  copperPrice := 13200
  isLoading := true
  params := defaultParams

/-- The constructor's default parameters as exact finite values. -/
def defaultFiniteParams : FiniteParameters where
  copperPriceLME := 13200
  explorationAcres := 1500
  explorationCostPerAcre := 667
  excavationCost := 85
  processingCost := 50
  plantCapacity := 350
  operatingDays := 300
  rawCopperPercentage := 2.5
  recoveryRate := 88
  finalProductPercentage := 18
  lmePayableRate := 96.5
  treatmentCharge := 80
  wasteDisposalCharge := 5
  totalInvestment := 6600000

/-- The method `calculateExplorationCosts(acres)`. -/
def calculateExplorationCosts (acres : JSNum) : ExplorationCosts :=
  let mapping := acres * 50
  let drilling := JSNum.ceil (acres / 30) * 15000
  let labAnalysis := JSNum.ceil (acres / 12) * 1000
  let surveys := acres * 33.33
  { mapping := mapping
    drilling := drilling
    labAnalysis := labAnalysis
    surveys := surveys
    total := mapping + drilling + labAnalysis + surveys }

/-- The method `calculate()`: reads `this.params` and builds the results object
passed to `updateDisplay`.  The display itself (DOM writes) is not modelled. -/
def calculate (self : InvestmentCalculator) : Result :=
  let p := self.params
  -- 1. exploration costs
  let explorationCosts := calculateExplorationCosts p.explorationAcres
  -- 2. annual processing volume
  let annualProcessing := p.plantCapacity * p.operatingDays
  -- 3. excavation and processing costs
  let totalExcavationProcessingCost := p.excavationCost + p.processingCost
  let annualExcavationProcessingCosts := annualProcessing * totalExcavationProcessingCost
  -- 4. raw copper content
  let rawCopperInOre := annualProcessing * (p.rawCopperPercentage / 100)
  -- 5. recovered copper
  let recoveredCopper := rawCopperInOre * (p.recoveryRate / 100)
  -- 6. concentrate production
  let concentrateProduced := recoveredCopper / (p.finalProductPercentage / 100)
  -- 7. payable copper
  let payableCopper := recoveredCopper * (p.lmePayableRate / 100)
  -- 8. revenue
  let grossRevenue := payableCopper * p.copperPriceLME
  -- 9. treatment charges and waste disposal
  let treatmentCharges := concentrateProduced * p.treatmentCharge
  let wasteDisposalCharges := annualProcessing * p.wasteDisposalCharge
  let totalTCWD := treatmentCharges + wasteDisposalCharges
  -- 10. net revenue
  let netRevenue := grossRevenue - totalTCWD
  -- 11. total operating costs
  let totalOperatingCosts := annualExcavationProcessingCosts
  -- 12. net profit
  let netProfit := netRevenue - totalOperatingCosts
  -- 13. return on investment
  let roi := (netProfit / p.totalInvestment) * 100
  -- 14. payback period
  let paybackMonths := if JSNum.gt netProfit 0 then (p.totalInvestment / netProfit) * 12 else 0
  -- 15. year 3+ projections
  let year3Processing := annualProcessing * 2
  let year3RecoveredCopper := recoveredCopper * 2
  let year3PayableCopper := payableCopper * 2
  let year3GrossRevenue := year3PayableCopper * p.copperPriceLME
  let year3TCWD := totalTCWD * 2
  let year3NetRevenue := year3GrossRevenue - year3TCWD
  let year3OperatingCosts := totalOperatingCosts * 2
  let year3NetProfit := year3NetRevenue - year3OperatingCosts
  -- 16. profit per ton
  let profitPerTonOre := netProfit / annualProcessing
  let profitPerTonCopper := netProfit / recoveredCopper
  { annualProcessing := annualProcessing
    rawCopperInOre := rawCopperInOre
    recoveredCopper := recoveredCopper
    concentrateProduced := concentrateProduced
    payableCopper := payableCopper
    explorationCosts := explorationCosts
    annualExcavationProcessingCosts := annualExcavationProcessingCosts
    totalOperatingCosts := totalOperatingCosts
    treatmentCharges := treatmentCharges
    wasteDisposalCharges := wasteDisposalCharges
    totalTCWD := totalTCWD
    grossRevenue := grossRevenue
    netRevenue := netRevenue
    netProfit := netProfit
    roi := roi
    paybackMonths := paybackMonths
    profitPerTonOre := profitPerTonOre
    profitPerTonCopper := profitPerTonCopper
    year3Processing := year3Processing
    year3RecoveredCopper := year3RecoveredCopper
    year3NetRevenue := year3NetRevenue
    year3OperatingCosts := year3OperatingCosts
    year3NetProfit := year3NetProfit }

/-- The `input` listener of `setupEventListeners`: a value that is not NaN and
is `>= 0` is stored in the named parameter, and also in `copperPrice` when the
parameter is `copperPriceLME`; any other value is ignored.  The closing call of
`calculate` only redraws the display. -/
def inputHandler (self : InvestmentCalculator) (e : FieldEvent) : InvestmentCalculator :=
  let param := e.param
  let value := e.value
  if !JSNum.isNaN value && JSNum.ge value 0 then
    let self :=
      match param with
      | some name => { self with params := self.params.set name value }
      | none => self
    let self :=
      if param = some ParamName.copperPriceLME then { self with copperPrice := value } else self
    self
  else
    self

/-- The `blur` listener of `setupEventListeners`: the value is raised to `min`
when below it, lowered to `max` when `max` is truthy and the value is above it,
and then stored in the named parameter.  The writes to `e.target.value` and the
closing call of `calculate` only touch the page. -/
def blurHandler (self : InvestmentCalculator) (e : FieldEvent) : InvestmentCalculator :=
  let min := e.min
  let max := e.max
  let value := e.value
  let value := if JSNum.lt value min then min else value
  let value := if JSNum.truthy max && JSNum.gt value max then max else value
  let param := e.param
  match param with
  | some name => { self with params := self.params.set name value }
  | none => self

/-- The method `reset()`: a fresh `params` object with the current `copperPrice`
as `copperPriceLME` and the literal defaults elsewhere. -/
def reset (self : InvestmentCalculator) : InvestmentCalculator :=
  { self with
    params :=
      { copperPriceLME := self.copperPrice
        explorationAcres := 1500
        explorationCostPerAcre := 667
        excavationCost := 85
        processingCost := 50
        plantCapacity := 350
        operatingDays := 300
        rawCopperPercentage := 2.5
        recoveryRate := 88
        finalProductPercentage := 18
        lmePayableRate := 96.5
        treatmentCharge := 80
        wasteDisposalCharge := 5
        totalInvestment := 6600000 } }

/-- The part of `fetchCopperPrice` that runs before the request is awaited. -/
def fetchCopperPriceBegin (self : InvestmentCalculator) : InvestmentCalculator :=
  { self with isLoading := true }

/-- The part of `fetchCopperPrice` that runs once the request has settled: the
rest of the `try` block, or the `catch` block, and then the `finally` block. -/
def fetchCopperPriceEnd (self : InvestmentCalculator) (outcome : FetchOutcome) :
    InvestmentCalculator :=
  let self :=
    match outcome with
    | FetchOutcome.quote q =>
      let pricePerTon := JSNum.round (q * 2204.62)
      if JSNum.truthy pricePerTon && JSNum.gt pricePerTon 0 then
        { self with
          copperPrice := pricePerTon
          params := { self.params with copperPriceLME := pricePerTon } }
      else
        self
    | FetchOutcome.notOk => self
    | FetchOutcome.threw =>
      { self with
        copperPrice := 13200
        params := { self.params with copperPriceLME := 13200 } }
  { self with isLoading := false }

/-- The method `fetchCopperPrice()` run from start to end with the given outcome
of the request. -/
def fetchCopperPrice (self : InvestmentCalculator) (outcome : FetchOutcome) :
    InvestmentCalculator :=
  fetchCopperPriceEnd (fetchCopperPriceBegin self) outcome

/-- One user edit dispatched to its listener. -/
def applyEdit (self : InvestmentCalculator) : Edit → InvestmentCalculator
  | Edit.input e => inputHandler self e
  | Edit.blur e => blurHandler self e

/-- A sequence of user edits, handled one after the other. -/
def applyEdits (self : InvestmentCalculator) (edits : List Edit) : InvestmentCalculator :=
  edits.foldl applyEdit self

/-- The invariant "no parameter is negative": the cached price and every
parameter are numbers `>= 0` (so none is NaN). -/
def NonNegative (self : InvestmentCalculator) : Prop :=
  JSNum.ge self.copperPrice 0 = true ∧ ∀ name : ParamName, JSNum.ge (self.params.get name) 0 = true

/-- The method `calculate()` as a change of the page: the results object of the
current parameters is handed to `updateDisplay`; the calculator is not written. -/
def runCalculate (pg : Page) : Page :=
  { pg with displayed := some (calculate pg.calculator) }

/-- The method `init()` up to the start of the refresh timer: the price fetch is
awaited, then `calculate()` runs. -/
def init (pg : Page) (outcome : FetchOutcome) : Page :=
  runCalculate { pg with calculator := fetchCopperPrice pg.calculator outcome }

/-- One firing of the timer set by `startPriceRefresh`: `fetchCopperPrice()` is
called and not awaited, so it runs up to its request, and `calculate()` runs
right after. -/
def priceRefreshTick (pg : Page) : Page :=
  runCalculate { pg with calculator := fetchCopperPriceBegin pg.calculator }

/-- The rest of the `fetchCopperPrice()` call started by the timer, run when its
request has settled; nothing follows it. -/
def priceRefreshSettled (pg : Page) (outcome : FetchOutcome) : Page :=
  { pg with calculator := fetchCopperPriceEnd pg.calculator outcome }

/-- A page run: `init` with the quote 5 dollars per pound, then one firing of the
refresh timer whose request settles with the quote 4. -/
def refreshRun : Page :=
  priceRefreshSettled
    (priceRefreshTick (init ⟨constructor, none⟩ (FetchOutcome.quote 5)))
    (FetchOutcome.quote 4)

/-- Commas between groups of three digits; the digits are given last digit
first. -/
def insertCommas : List Char → List Char
  | a :: b :: c :: rest =>
    match rest with
    | [] => [a, b, c]
    | _ :: _ => a :: b :: c :: ',' :: insertCommas rest
  | digits => digits

/-- The digits of `n`, padded with zeros on the left to at least `width`
digits. -/
def padDigits (width n : ℕ) : List Char :=
  List.replicate (width - (Nat.toDigits 10 n).length) '0' ++ Nat.toDigits 10 n

/-- The helper `fmt(num, decimals)` of `updateDisplay`, that is
`Intl.NumberFormat` for `en-US` with exactly `decimals` fraction digits: the
magnitude is rounded to that many decimals (a tie going away from zero), the
integer part is grouped in threes, and a negative number carries a minus sign.
The call `fmt(num)` of the source is `fmt num 0`. -/
def fmt (num : JSNum) (decimals : ℕ) : String :=
  match num with
  | JSNum.nan => "NaN"
  | JSNum.posInf => "∞"
  | JSNum.negInf => "-∞"
  | JSNum.fin q =>
    let scaled : ℕ := (⌊|q| * 10 ^ decimals + 1 / 2⌋).toNat
    let whole := String.mk (insertCommas (Nat.toDigits 10 (scaled / 10 ^ decimals)).reverse).reverse
    let fraction :=
      if decimals = 0 then "" else "." ++ String.mk (padDigits decimals (scaled % 10 ^ decimals))
    (if q < 0 then "-" else "") ++ whole ++ fraction

/-- The helper `fmtCurrency(num)` of `updateDisplay`. -/
def fmtCurrency (num : JSNum) : String :=
  if JSNum.ge (JSNum.abs num) 1000000 then
    "$" ++ fmt (num / 1000000) 2 ++ "M"
  else
    "$" ++ fmt num 0

end InvestmentCalculator

namespace TestimonialsCarousel

/-- The method `goTo(index)`; the class toggles on slides and dots are not
modelled. -/
def goTo {α : Type} (self : TestimonialsCarousel α) (index : ℤ) : TestimonialsCarousel α :=
  let index := if index < 0 then (self.testimonials.length : ℤ) - 1 else index
  let index := if index ≥ (self.testimonials.length : ℤ) then 0 else index
  { self with currentIndex := index }

/-- The method `next()`. -/
def next {α : Type} (self : TestimonialsCarousel α) : TestimonialsCarousel α :=
  goTo self (self.currentIndex + 1)

/-- The method `prev()`. -/
def prev {α : Type} (self : TestimonialsCarousel α) : TestimonialsCarousel α :=
  goTo self (self.currentIndex - 1)

end TestimonialsCarousel

/-! ## Arithmetic on finite values -/

namespace JSNum

@[simp] theorem ofNat_eq_fin (n : ℕ) : (no_index (OfNat.ofNat n) : JSNum) = fin (OfNat.ofNat n) := rfl

@[simp] theorem ofScientific_eq_fin (m : ℕ) (s : Bool) (e : ℕ) :
    (OfScientific.ofScientific m s e : JSNum) = fin (OfScientific.ofScientific m s e) := rfl

@[simp] theorem fin_add_fin (a b : ℚ) : fin a + fin b = fin (a + b) := rfl

@[simp] theorem fin_sub_fin (a b : ℚ) : fin a - fin b = fin (a - b) :=
  congrArg fin (sub_eq_add_neg a b).symm

@[simp] theorem fin_mul_fin (a b : ℚ) : fin a * fin b = fin (a * b) := rfl

theorem fin_div_fin (a b : ℚ) :
    fin a / fin b
      = if b = 0 then (if a = 0 then nan else signedInf (decide (0 < a))) else fin (a / b) := rfl

@[simp] theorem fin_div_fin_of_ne (a : ℚ) {b : ℚ} (h : b ≠ 0) : fin a / fin b = fin (a / b) := by
  rw [fin_div_fin, if_neg h]

@[simp] theorem ceil_fin (a : ℚ) : ceil (fin a) = fin (⌈a⌉ : ℤ) := rfl

@[simp] theorem gt_fin_fin (a b : ℚ) : gt (fin a) (fin b) = decide (b < a) := rfl

@[simp] theorem ge_fin_fin (a b : ℚ) : ge (fin a) (fin b) = decide (b ≤ a) := rfl

end JSNum

/-! ## The calculation on finite parameters -/

namespace InvestmentCalculator

theorem hundred_ne_zero : (100 : ℚ) ≠ 0 := by norm_num

/-- Steps 2 to 13 on finite parameters with a non-zero concentrate grade: every
intermediate figure is finite, and the figures satisfy the defining equations
over the rationals. -/
theorem calculate_finite (self : InvestmentCalculator) (P : FiniteParameters)
    (hP : self.params = P.toParameters) (hfpp : P.finalProductPercentage ≠ 0) :
    ∃ ap raw rc conc pay opc gross tc wd tcwd nrev np : ℚ,
      ((calculate self).annualProcessing = fin ap ∧
       (calculate self).rawCopperInOre = fin raw ∧
       (calculate self).recoveredCopper = fin rc ∧
       (calculate self).concentrateProduced = fin conc ∧
       (calculate self).payableCopper = fin pay ∧
       (calculate self).annualExcavationProcessingCosts = fin opc ∧
       (calculate self).totalOperatingCosts = fin opc ∧
       (calculate self).grossRevenue = fin gross ∧
       (calculate self).treatmentCharges = fin tc ∧
       (calculate self).wasteDisposalCharges = fin wd ∧
       (calculate self).totalTCWD = fin tcwd ∧
       (calculate self).netRevenue = fin nrev ∧
       (calculate self).netProfit = fin np) ∧
      (ap = P.plantCapacity * P.operatingDays ∧
       raw = ap * (P.rawCopperPercentage / 100) ∧
       rc = raw * (P.recoveryRate / 100) ∧
       conc = rc / (P.finalProductPercentage / 100) ∧
       pay = rc * (P.lmePayableRate / 100) ∧
       opc = ap * (P.excavationCost + P.processingCost) ∧
       gross = pay * P.copperPriceLME ∧
       tc = conc * P.treatmentCharge ∧
       wd = ap * P.wasteDisposalCharge ∧
       tcwd = tc + wd ∧
       nrev = gross - tcwd ∧
       np = nrev - opc) := by
  have h : P.finalProductPercentage / 100 ≠ 0 := div_ne_zero hfpp hundred_ne_zero
  simp only [calculate, hP, FiniteParameters.toParameters, ofNat_eq_fin, fin_mul_fin,
    fin_add_fin, fin_sub_fin, fin_div_fin_of_ne _ hundred_ne_zero, fin_div_fin_of_ne _ h]
  exact ⟨_, _, _, _, _, _, _, _, _, _, _, _,
    ⟨rfl, rfl, rfl, rfl, rfl, rfl, rfl, rfl, rfl, rfl, rfl, rfl, rfl⟩,
    ⟨rfl, rfl, rfl, rfl, rfl, rfl, rfl, rfl, rfl, rfl, rfl, rfl⟩⟩

theorem constructor_params : constructor.params = defaultFiniteParams.toParameters := rfl

theorem default_grade_ne_zero : defaultFiniteParams.finalProductPercentage ≠ 0 := by
  norm_num [defaultFiniteParams]

theorem fin_ne_zero_iff {a : ℚ} : fin a ≠ (0 : JSNum) ↔ a ≠ 0 := by
  constructor
  · intro h ha
    exact h (by rw [ha]; rfl)
  · intro h ha
    exact h (JSNum.fin.inj ha)

/-- The payback expression of step 14 is never negative when the investment is a
finite non-negative number, whatever the net profit is. -/
theorem payback_expr_nonneg (t : ℚ) (ht : 0 ≤ t) (x : JSNum) :
    JSNum.ge (if JSNum.gt x 0 then (fin t / x) * 12 else 0) 0 = true := by
  cases x with
  | fin a =>
    by_cases ha : 0 < a
    · have hne : a ≠ 0 := ne_of_gt ha
      have h12 : (0 : ℚ) ≤ t / a * 12 := by positivity
      simpa [ha, hne] using h12
    · simp [ha]
  | posInf =>
    have h1 : JSNum.gt posInf (fin 0) = true := rfl
    have h2 : fin t / posInf = fin 0 := rfl
    simp [h1, h2]
  | negInf =>
    have h1 : JSNum.gt negInf (fin 0) = false := rfl
    simp [h1]
  | nan =>
    have h1 : JSNum.gt nan (fin 0) = false := rfl
    simp [h1]

/-- A number that is `<= 0` is not `> 0`. -/
theorem gt_zero_eq_false_of_le_zero (x : JSNum) (h : JSNum.le x 0 = true) :
    JSNum.gt x 0 = false := by
  cases x with
  | fin a =>
    have ha : a ≤ 0 := by simpa [JSNum.le] using h
    simpa using ha
  | posInf => exact absurd h (by decide)
  | negInf => rfl
  | nan => rfl

/-! ## Claims -/

/-- C1. On finite parameters with a non-zero `finalProductPercentage`, `calculate`
produces finite cost, revenue and profit figures which satisfy, over the
rationals: annual operating cost = plantCapacity * operatingDays *
(excavationCost + processingCost); grossRevenue = payableCopper * copperPriceLME;
treatmentCharges = concentrateProduced * treatmentCharge; wasteDisposalCharges =
annualProcessing * wasteDisposalCharge; totalTCWD = treatmentCharges +
wasteDisposalCharges; netRevenue = grossRevenue - totalTCWD; netProfit =
netRevenue - annual operating cost.  The annual operating cost is the value of
both `annualExcavationProcessingCosts` and `totalOperatingCosts`. -/
theorem calculate_cost_revenue_profit (self : InvestmentCalculator) (P : FiniteParameters)
    (hP : self.params = P.toParameters) (hfpp : P.finalProductPercentage ≠ 0) :
    ∃ annualProcessing concentrateProduced payableCopper annualOperatingCost grossRevenue
        treatmentCharges wasteDisposalCharges totalTCWD netRevenue netProfit : ℚ,
      ((calculate self).annualProcessing = fin annualProcessing ∧
       (calculate self).concentrateProduced = fin concentrateProduced ∧
       (calculate self).payableCopper = fin payableCopper ∧
       (calculate self).annualExcavationProcessingCosts = fin annualOperatingCost ∧
       (calculate self).totalOperatingCosts = fin annualOperatingCost ∧
       (calculate self).grossRevenue = fin grossRevenue ∧
       (calculate self).treatmentCharges = fin treatmentCharges ∧
       (calculate self).wasteDisposalCharges = fin wasteDisposalCharges ∧
       (calculate self).totalTCWD = fin totalTCWD ∧
       (calculate self).netRevenue = fin netRevenue ∧
       (calculate self).netProfit = fin netProfit) ∧
      (annualOperatingCost
          = P.plantCapacity * P.operatingDays * (P.excavationCost + P.processingCost) ∧
       grossRevenue = payableCopper * P.copperPriceLME ∧
       treatmentCharges = concentrateProduced * P.treatmentCharge ∧
       wasteDisposalCharges = annualProcessing * P.wasteDisposalCharge ∧
       totalTCWD = treatmentCharges + wasteDisposalCharges ∧
       netRevenue = grossRevenue - totalTCWD ∧
       netProfit = netRevenue - annualOperatingCost) := by
  obtain ⟨ap, raw, rc, conc, pay, opc, gross, tc, wd, tcwd, nrev, np,
    ⟨f1, -, -, f4, f5, f6, f7, f8, f9, f10, f11, f12, f13⟩,
    ⟨e1, -, -, -, -, e6, e7, e8, e9, e10, e11, e12⟩⟩ := calculate_finite self P hP hfpp
  exact ⟨ap, conc, pay, opc, gross, tc, wd, tcwd, nrev, np,
    ⟨f1, f4, f5, f6, f7, f8, f9, f10, f11, f12, f13⟩,
    ⟨by rw [e6, e1], e7, e8, e9, e10, e11, e12⟩⟩

/-- Witness for C1: the constructor's default state. -/
theorem calculate_cost_revenue_profit_witness :
    ∃ annualProcessing concentrateProduced payableCopper annualOperatingCost grossRevenue
        treatmentCharges wasteDisposalCharges totalTCWD netRevenue netProfit : ℚ,
      ((calculate constructor).annualProcessing = fin annualProcessing ∧
       (calculate constructor).concentrateProduced = fin concentrateProduced ∧
       (calculate constructor).payableCopper = fin payableCopper ∧
       (calculate constructor).annualExcavationProcessingCosts = fin annualOperatingCost ∧
       (calculate constructor).totalOperatingCosts = fin annualOperatingCost ∧
       (calculate constructor).grossRevenue = fin grossRevenue ∧
       (calculate constructor).treatmentCharges = fin treatmentCharges ∧
       (calculate constructor).wasteDisposalCharges = fin wasteDisposalCharges ∧
       (calculate constructor).totalTCWD = fin totalTCWD ∧
       (calculate constructor).netRevenue = fin netRevenue ∧
       (calculate constructor).netProfit = fin netProfit) ∧
      (annualOperatingCost
          = defaultFiniteParams.plantCapacity * defaultFiniteParams.operatingDays
              * (defaultFiniteParams.excavationCost + defaultFiniteParams.processingCost) ∧
       grossRevenue = payableCopper * defaultFiniteParams.copperPriceLME ∧
       treatmentCharges = concentrateProduced * defaultFiniteParams.treatmentCharge ∧
       wasteDisposalCharges = annualProcessing * defaultFiniteParams.wasteDisposalCharge ∧
       totalTCWD = treatmentCharges + wasteDisposalCharges ∧
       netRevenue = grossRevenue - totalTCWD ∧
       netProfit = netRevenue - annualOperatingCost) :=
  calculate_cost_revenue_profit constructor defaultFiniteParams constructor_params
    default_grade_ne_zero

/-- C2. On finite parameters with a non-zero `finalProductPercentage`, the
production volumes are finite and satisfy, over the rationals: annualProcessing =
plantCapacity * operatingDays; rawCopperInOre = annualProcessing *
rawCopperPercentage / 100; recoveredCopper = rawCopperInOre * recoveryRate / 100;
concentrateProduced = recoveredCopper / (finalProductPercentage / 100);
payableCopper = recoveredCopper * lmePayableRate / 100. -/
theorem calculate_production_volumes (self : InvestmentCalculator) (P : FiniteParameters)
    (hP : self.params = P.toParameters) (hfpp : P.finalProductPercentage ≠ 0) :
    ∃ annualProcessing rawCopperInOre recoveredCopper concentrateProduced payableCopper : ℚ,
      ((calculate self).annualProcessing = fin annualProcessing ∧
       (calculate self).rawCopperInOre = fin rawCopperInOre ∧
       (calculate self).recoveredCopper = fin recoveredCopper ∧
       (calculate self).concentrateProduced = fin concentrateProduced ∧
       (calculate self).payableCopper = fin payableCopper) ∧
      (annualProcessing = P.plantCapacity * P.operatingDays ∧
       rawCopperInOre = annualProcessing * P.rawCopperPercentage / 100 ∧
       recoveredCopper = rawCopperInOre * P.recoveryRate / 100 ∧
       concentrateProduced = recoveredCopper / (P.finalProductPercentage / 100) ∧
       payableCopper = recoveredCopper * P.lmePayableRate / 100) := by
  obtain ⟨ap, raw, rc, conc, pay, opc, gross, tc, wd, tcwd, nrev, np,
    ⟨f1, f2, f3, f4, f5, -⟩, ⟨e1, e2, e3, e4, e5, -⟩⟩ := calculate_finite self P hP hfpp
  exact ⟨ap, raw, rc, conc, pay, ⟨f1, f2, f3, f4, f5⟩,
    ⟨e1, by rw [e2, mul_div_assoc], by rw [e3, mul_div_assoc], e4, by rw [e5, mul_div_assoc]⟩⟩

/-- Witness for C2: the constructor's default state. -/
theorem calculate_production_volumes_witness :
    ∃ annualProcessing rawCopperInOre recoveredCopper concentrateProduced payableCopper : ℚ,
      ((calculate constructor).annualProcessing = fin annualProcessing ∧
       (calculate constructor).rawCopperInOre = fin rawCopperInOre ∧
       (calculate constructor).recoveredCopper = fin recoveredCopper ∧
       (calculate constructor).concentrateProduced = fin concentrateProduced ∧
       (calculate constructor).payableCopper = fin payableCopper) ∧
      (annualProcessing
          = defaultFiniteParams.plantCapacity * defaultFiniteParams.operatingDays ∧
       rawCopperInOre = annualProcessing * defaultFiniteParams.rawCopperPercentage / 100 ∧
       recoveredCopper = rawCopperInOre * defaultFiniteParams.recoveryRate / 100 ∧
       concentrateProduced
          = recoveredCopper / (defaultFiniteParams.finalProductPercentage / 100) ∧
       payableCopper = recoveredCopper * defaultFiniteParams.lmePayableRate / 100) :=
  calculate_production_volumes constructor defaultFiniteParams constructor_params
    default_grade_ne_zero

/-- C3. On finite parameters with non-zero `finalProductPercentage` and
`totalInvestment`, and with non-zero computed `annualProcessing` and
`recoveredCopper`, the three ratios are finite and equal, over the rationals,
roi = netProfit / totalInvestment * 100, profitPerTonOre = netProfit /
annualProcessing and profitPerTonCopper = netProfit / recoveredCopper. -/
theorem calculate_ratios (self : InvestmentCalculator) (P : FiniteParameters)
    (hP : self.params = P.toParameters) (hfpp : P.finalProductPercentage ≠ 0)
    (hinv : P.totalInvestment ≠ 0) (hap : (calculate self).annualProcessing ≠ 0)
    (hrc : (calculate self).recoveredCopper ≠ 0) :
    ∃ netProfit annualProcessing recoveredCopper : ℚ,
      ((calculate self).netProfit = fin netProfit ∧
       (calculate self).annualProcessing = fin annualProcessing ∧
       (calculate self).recoveredCopper = fin recoveredCopper) ∧
      ((calculate self).roi = fin (netProfit / P.totalInvestment * 100) ∧
       (calculate self).profitPerTonOre = fin (netProfit / annualProcessing) ∧
       (calculate self).profitPerTonCopper = fin (netProfit / recoveredCopper)) := by
  obtain ⟨ap, raw, rc, conc, pay, opc, gross, tc, wd, tcwd, nrev, np,
    ⟨f1, -, f3, -, -, -, -, -, -, -, -, -, f13⟩, -⟩ := calculate_finite self P hP hfpp
  have hap0 : ap ≠ 0 := fin_ne_zero_iff.mp (f1 ▸ hap)
  have hrc0 : rc ≠ 0 := fin_ne_zero_iff.mp (f3 ▸ hrc)
  have hT : self.params.totalInvestment = fin P.totalInvestment := by rw [hP]; rfl
  have r1 : (calculate self).roi
      = ((calculate self).netProfit / self.params.totalInvestment) * 100 := rfl
  have r2 : (calculate self).profitPerTonOre
      = (calculate self).netProfit / (calculate self).annualProcessing := rfl
  have r3 : (calculate self).profitPerTonCopper
      = (calculate self).netProfit / (calculate self).recoveredCopper := rfl
  refine ⟨np, ap, rc, ⟨f13, f1, f3⟩, ?_, ?_, ?_⟩
  · rw [r1, f13, hT, fin_div_fin_of_ne _ hinv, ofNat_eq_fin, fin_mul_fin]
  · rw [r2, f13, f1, fin_div_fin_of_ne _ hap0]
  · rw [r3, f13, f3, fin_div_fin_of_ne _ hrc0]

theorem constructor_annualProcessing_ne_zero : (calculate constructor).annualProcessing ≠ 0 := by
  simp [calculate, constructor, defaultParams]

theorem constructor_recoveredCopper_ne_zero : (calculate constructor).recoveredCopper ≠ 0 := by
  simp [calculate, constructor, defaultParams]
  norm_num

theorem default_investment_ne_zero : defaultFiniteParams.totalInvestment ≠ 0 := by
  norm_num [defaultFiniteParams]

/-- Witness for C3: the constructor's default state. -/
theorem calculate_ratios_witness :
    ∃ netProfit annualProcessing recoveredCopper : ℚ,
      ((calculate constructor).netProfit = fin netProfit ∧
       (calculate constructor).annualProcessing = fin annualProcessing ∧
       (calculate constructor).recoveredCopper = fin recoveredCopper) ∧
      ((calculate constructor).roi
          = fin (netProfit / defaultFiniteParams.totalInvestment * 100) ∧
       (calculate constructor).profitPerTonOre = fin (netProfit / annualProcessing) ∧
       (calculate constructor).profitPerTonCopper = fin (netProfit / recoveredCopper)) :=
  calculate_ratios constructor defaultFiniteParams constructor_params default_grade_ne_zero
    default_investment_ne_zero constructor_annualProcessing_ne_zero
    constructor_recoveredCopper_ne_zero

/-- C4. For every parameters object (any numbers, NaN and the infinities
included): `paybackMonths` is `(totalInvestment / netProfit) * 12` when
`netProfit > 0` and `0` when `netProfit <= 0`; the division is evaluated only
with a denominator other than zero; on finite values the quotient is the exact
one; and `paybackMonths >= 0` whenever `totalInvestment` is a finite
non-negative number. -/
theorem calculate_paybackMonths (self : InvestmentCalculator) :
    (JSNum.gt (calculate self).netProfit 0 = true →
      (calculate self).paybackMonths
        = (self.params.totalInvestment / (calculate self).netProfit) * 12) ∧
    (JSNum.le (calculate self).netProfit 0 = true → (calculate self).paybackMonths = 0) ∧
    (JSNum.gt (calculate self).netProfit 0 = true → (calculate self).netProfit ≠ 0) ∧
    (∀ t np : ℚ, self.params.totalInvestment = fin t → (calculate self).netProfit = fin np →
      0 < np → (calculate self).paybackMonths = fin (t / np * 12)) ∧
    (∀ t : ℚ, self.params.totalInvestment = fin t → 0 ≤ t →
      JSNum.ge (calculate self).paybackMonths 0 = true) := by
  have r : (calculate self).paybackMonths
      = if JSNum.gt (calculate self).netProfit 0
          then (self.params.totalInvestment / (calculate self).netProfit) * 12 else 0 := rfl
  refine ⟨?_, ?_, ?_, ?_, ?_⟩
  · intro h
    rw [r, if_pos h]
  · intro h
    rw [r, gt_zero_eq_false_of_le_zero _ h]
    rfl
  · intro h h0
    rw [h0] at h
    exact absurd h (by decide)
  · intro t np hT hnp hpos
    have h : JSNum.gt (fin np) 0 = true := by simpa using hpos
    rw [r, hnp, if_pos h, hT, fin_div_fin_of_ne _ (ne_of_gt hpos), ofNat_eq_fin, fin_mul_fin]
  · intro t hT ht
    rw [r, hT]
    exact payback_expr_nonneg t ht _

theorem constructor_netProfit_pos : JSNum.gt (calculate constructor).netProfit 0 = true := by
  simp [calculate, constructor, defaultParams]
  norm_num

/-- Witness for C4: in the constructor's default state the net profit is
positive, so the payback period is the quotient. -/
theorem calculate_paybackMonths_witness :
    JSNum.gt (calculate constructor).netProfit 0 = true ∧
    (calculate constructor).paybackMonths
      = (constructor.params.totalInvestment / (calculate constructor).netProfit) * 12 :=
  ⟨constructor_netProfit_pos, (calculate_paybackMonths constructor).1 constructor_netProfit_pos⟩

/-- C5. `calculateExplorationCosts(acres)` returns mapping = acres * 50, drilling =
ceil(acres / 30) * 15000, labAnalysis = ceil(acres / 12) * 1000, surveys =
acres * 33.33 and total = mapping + drilling + labAnalysis + surveys; for a finite
`acres` (in particular every non-negative one) all five are finite, with the
ceiling the least integer not below the quotient. -/
theorem calculateExplorationCosts_spec :
    (∀ acres : JSNum,
      (calculateExplorationCosts acres).mapping = acres * 50 ∧
      (calculateExplorationCosts acres).drilling = JSNum.ceil (acres / 30) * 15000 ∧
      (calculateExplorationCosts acres).labAnalysis = JSNum.ceil (acres / 12) * 1000 ∧
      (calculateExplorationCosts acres).surveys = acres * 33.33 ∧
      (calculateExplorationCosts acres).total
        = (calculateExplorationCosts acres).mapping + (calculateExplorationCosts acres).drilling
          + (calculateExplorationCosts acres).labAnalysis
          + (calculateExplorationCosts acres).surveys) ∧
    (∀ a : ℚ,
      (calculateExplorationCosts (fin a)).mapping = fin (a * 50) ∧
      (calculateExplorationCosts (fin a)).drilling = fin ((⌈a / 30⌉ : ℤ) * 15000) ∧
      (calculateExplorationCosts (fin a)).labAnalysis = fin ((⌈a / 12⌉ : ℤ) * 1000) ∧
      (calculateExplorationCosts (fin a)).surveys = fin (a * 33.33) ∧
      (calculateExplorationCosts (fin a)).total
        = fin (a * 50 + (⌈a / 30⌉ : ℤ) * 15000 + (⌈a / 12⌉ : ℤ) * 1000 + a * 33.33)) := by
  refine ⟨fun acres => ⟨rfl, rfl, rfl, rfl, rfl⟩, fun a => ?_⟩
  have h30 : (30 : ℚ) ≠ 0 := by norm_num
  have h12 : (12 : ℚ) ≠ 0 := by norm_num
  simp only [calculateExplorationCosts, ofNat_eq_fin, ofScientific_eq_fin, fin_mul_fin,
    fin_add_fin, fin_div_fin_of_ne _ h30, fin_div_fin_of_ne _ h12, ceil_fin, and_self]

/-- C6. On finite parameters with a non-zero `finalProductPercentage`, every
year-3 field is exactly twice its year-1/2 counterpart: year3Processing = 2 *
annualProcessing, year3RecoveredCopper = 2 * recoveredCopper, year3NetRevenue =
2 * netRevenue, year3OperatingCosts = 2 * totalOperatingCosts and year3NetProfit
= 2 * netProfit. -/
theorem calculate_year3_doubles (self : InvestmentCalculator) (P : FiniteParameters)
    (hP : self.params = P.toParameters) (hfpp : P.finalProductPercentage ≠ 0) :
    ∃ annualProcessing recoveredCopper netRevenue totalOperatingCosts netProfit : ℚ,
      ((calculate self).annualProcessing = fin annualProcessing ∧
       (calculate self).recoveredCopper = fin recoveredCopper ∧
       (calculate self).netRevenue = fin netRevenue ∧
       (calculate self).totalOperatingCosts = fin totalOperatingCosts ∧
       (calculate self).netProfit = fin netProfit) ∧
      ((calculate self).year3Processing = fin (2 * annualProcessing) ∧
       (calculate self).year3RecoveredCopper = fin (2 * recoveredCopper) ∧
       (calculate self).year3NetRevenue = fin (2 * netRevenue) ∧
       (calculate self).year3OperatingCosts = fin (2 * totalOperatingCosts) ∧
       (calculate self).year3NetProfit = fin (2 * netProfit)) := by
  obtain ⟨ap, raw, rc, conc, pay, opc, gross, tc, wd, tcwd, nrev, np,
    ⟨f1, -, f3, -, f5, -, f7, -, -, -, f11, f12, f13⟩,
    ⟨-, -, -, -, -, -, e7, -, -, -, e11, e12⟩⟩ := calculate_finite self P hP hfpp
  have hprice : self.params.copperPriceLME = fin P.copperPriceLME := by rw [hP]; rfl
  have r1 : (calculate self).year3Processing = (calculate self).annualProcessing * 2 := rfl
  have r2 : (calculate self).year3RecoveredCopper = (calculate self).recoveredCopper * 2 := rfl
  have r3 : (calculate self).year3NetRevenue
      = (calculate self).payableCopper * 2 * self.params.copperPriceLME
        - (calculate self).totalTCWD * 2 := rfl
  have r4 : (calculate self).year3OperatingCosts = (calculate self).totalOperatingCosts * 2 := rfl
  have r5 : (calculate self).year3NetProfit
      = (calculate self).payableCopper * 2 * self.params.copperPriceLME
        - (calculate self).totalTCWD * 2 - (calculate self).totalOperatingCosts * 2 := rfl
  refine ⟨ap, rc, nrev, opc, np, ⟨f1, f3, f12, f7, f13⟩, ?_, ?_, ?_, ?_, ?_⟩
  · rw [r1, f1, ofNat_eq_fin, fin_mul_fin, mul_comm]
  · rw [r2, f3, ofNat_eq_fin, fin_mul_fin, mul_comm]
  · rw [r3, f5, f11, hprice, ofNat_eq_fin, fin_mul_fin, fin_mul_fin, fin_mul_fin, fin_sub_fin,
      e11, e7]
    congr 1
    ring
  · rw [r4, f7, ofNat_eq_fin, fin_mul_fin, mul_comm]
  · rw [r5, f5, f11, f7, hprice, ofNat_eq_fin, fin_mul_fin, fin_mul_fin, fin_mul_fin,
      fin_mul_fin, fin_sub_fin, fin_sub_fin, e12, e11, e7]
    congr 1
    ring

/-- Witness for C6: the constructor's default state. -/
theorem calculate_year3_doubles_witness :
    ∃ annualProcessing recoveredCopper netRevenue totalOperatingCosts netProfit : ℚ,
      ((calculate constructor).annualProcessing = fin annualProcessing ∧
       (calculate constructor).recoveredCopper = fin recoveredCopper ∧
       (calculate constructor).netRevenue = fin netRevenue ∧
       (calculate constructor).totalOperatingCosts = fin totalOperatingCosts ∧
       (calculate constructor).netProfit = fin netProfit) ∧
      ((calculate constructor).year3Processing = fin (2 * annualProcessing) ∧
       (calculate constructor).year3RecoveredCopper = fin (2 * recoveredCopper) ∧
       (calculate constructor).year3NetRevenue = fin (2 * netRevenue) ∧
       (calculate constructor).year3OperatingCosts = fin (2 * totalOperatingCosts) ∧
       (calculate constructor).year3NetProfit = fin (2 * netProfit)) :=
  calculate_year3_doubles constructor defaultFiniteParams constructor_params
    default_grade_ne_zero

/-- C7. With the constructor's default parameters, `calculate` yields exactly
annualProcessing = 105000, rawCopperInOre = 2625, recoveredCopper = 2310,
payableCopper = 2229.15 and grossRevenue = 29424780. -/
theorem calculate_default_volumes :
    (calculate constructor).annualProcessing = fin 105000 ∧
    (calculate constructor).rawCopperInOre = fin 2625 ∧
    (calculate constructor).recoveredCopper = fin 2310 ∧
    (calculate constructor).payableCopper = fin 2229.15 ∧
    (calculate constructor).grossRevenue = fin 29424780 := by
  simp [calculate, constructor, defaultParams]
  norm_num

/-- C8. With the constructor's default parameters, `calculate` yields
concentrateProduced = 38500/3, treatmentCharges within 0.01 of 1026666.67,
wasteDisposalCharges = 525000, totalTCWD within 0.01 of 1551666.67, an annual
operating cost of 14175000, netRevenue within 0.01 of 27873113.33, netProfit
within 0.01 of 13698113.33, and a roi in [207.45, 207.55), the values that round
to 207.5 at one decimal. -/
theorem calculate_default_money :
    (calculate constructor).concentrateProduced = fin (38500 / 3) ∧
    (∃ tc : ℚ, (calculate constructor).treatmentCharges = fin tc ∧
      |tc - 1026666.67| ≤ 0.01) ∧
    (calculate constructor).wasteDisposalCharges = fin 525000 ∧
    (∃ tcwd : ℚ, (calculate constructor).totalTCWD = fin tcwd ∧
      |tcwd - 1551666.67| ≤ 0.01) ∧
    (calculate constructor).annualExcavationProcessingCosts = fin 14175000 ∧
    (calculate constructor).totalOperatingCosts = fin 14175000 ∧
    (∃ nrev : ℚ, (calculate constructor).netRevenue = fin nrev ∧
      |nrev - 27873113.33| ≤ 0.01) ∧
    (∃ np : ℚ, (calculate constructor).netProfit = fin np ∧
      |np - 13698113.33| ≤ 0.01) ∧
    (∃ roi : ℚ, (calculate constructor).roi = fin roi ∧ 207.45 ≤ roi ∧ roi < 207.55) := by
  simp [calculate, constructor, defaultParams]
  norm_num [abs_le]

/-- C9. `calculateExplorationCosts(0)` returns mapping = 0, drilling = 0,
labAnalysis = 0, surveys = 0 and total = 0. -/
theorem calculateExplorationCosts_zero :
    calculateExplorationCosts 0
      = { mapping := 0, drilling := 0, labAnalysis := 0, surveys := 0, total := 0 } := by
  simp [calculateExplorationCosts]

/-- C10. Two calculator states whose parameters differ at most in
`explorationAcres` yield results that agree in every field other than
`explorationCosts`: the second result is the first with its exploration cost
breakdown replaced. -/
theorem calculate_explorationAcres_informational (s₁ s₂ : InvestmentCalculator)
    (h : s₂.params = { s₁.params with explorationAcres := s₂.params.explorationAcres }) :
    calculate s₂
      = { calculate s₁ with
          explorationCosts := calculateExplorationCosts s₂.params.explorationAcres } := by
  obtain ⟨c₁, l₁, p₁⟩ := s₁
  obtain ⟨c₂, l₂, p₂⟩ := s₂
  cases p₁
  cases p₂
  simp only [Parameters.mk.injEq, true_and] at h
  obtain ⟨h1, h3, h4, h5, h6, h7, h8, h9, h10, h11, h12, h13, h14⟩ := h
  subst h1 h3 h4 h5 h6 h7 h8 h9 h10 h11 h12 h13 h14
  rfl

/-- Witness for C10: the default state against a state with zero exploration
acres, another price cache and another loading flag. -/
theorem calculate_explorationAcres_informational_witness :
    calculate ⟨0, false, { defaultParams with explorationAcres := 0 }⟩
      = { calculate constructor with explorationCosts := calculateExplorationCosts 0 } :=
  calculate_explorationAcres_informational constructor
    ⟨0, false, { defaultParams with explorationAcres := 0 }⟩ rfl

/-! ## Edits, reset and price fetch -/

theorem get_set_same (p : Parameters) (name : ParamName) (v : JSNum) :
    (p.set name v).get name = v := by
  cases name <;> rfl

/-- A number that is `<=` another is not `>` it. -/
theorem gt_eq_false_of_le (a b : JSNum) (h : JSNum.le a b = true) : JSNum.gt a b = false := by
  cases a <;> cases b <;> simp_all [JSNum.le, JSNum.ge, JSNum.gt]

/-- A number `> 0` is truthy. -/
theorem truthy_of_gt_zero (a : JSNum) (h : JSNum.gt a 0 = true) : JSNum.truthy a = true := by
  cases a <;> simp_all [JSNum.gt, JSNum.truthy]
  exact ne_of_gt h

/-- What the blur listener stores, in terms of the two clamping tests. -/
theorem blurHandler_params (self : InvestmentCalculator) (name : ParamName)
    (value min max : JSNum) :
    (blurHandler self ⟨some name, value, min, max⟩).params
      = self.params.set name
          (if (JSNum.truthy max && JSNum.gt (if JSNum.lt value min then min else value) max) = true
            then max else (if JSNum.lt value min then min else value)) := rfl

/-- The upper clamp of the blur listener works for every maximum that is truthy,
that is, every maximum other than zero. -/
theorem blurHandler_clamps_to_truthy_max (self : InvestmentCalculator) (name : ParamName)
    (value min max : JSNum) (hgt : JSNum.gt value max = true)
    (hmin : min = nan ∨ JSNum.le min max = true) (hmax : JSNum.truthy max = true) :
    (blurHandler self ⟨some name, value, min, max⟩).params = self.params.set name max := by
  have hlt : JSNum.lt value min = false := by
    rcases hmin with h | h
    · subst h
      cases value <;> rfl
    · cases value <;> cases min <;> cases max <;>
        simp_all [JSNum.le, JSNum.ge, JSNum.gt, JSNum.lt]
      exact le_of_lt (lt_of_le_of_lt h hgt)
  rw [blurHandler_params, hlt]
  simp [hmax, hgt]

/-- The price a successful fetch installs. -/
theorem fetchCopperPrice_quote (self : InvestmentCalculator) (q : JSNum)
    (h : JSNum.gt (JSNum.round (q * 2204.62)) 0 = true) :
    fetchCopperPrice self (FetchOutcome.quote q)
      = { copperPrice := JSNum.round (q * 2204.62)
          isLoading := false
          params := { self.params with copperPriceLME := JSNum.round (q * 2204.62) } } := by
  have ht := truthy_of_gt_zero _ h
  simp only [fetchCopperPrice, fetchCopperPriceEnd, fetchCopperPriceBegin, ht, h,
    Bool.and_self, if_true]

/-- A quotient by zero is never finite. -/
theorem div_zero_not_finite (x : JSNum) : JSNum.isFinite (x / fin 0) = false := by
  cases x with
  | fin a =>
    by_cases ha : a = 0
    · simp [fin_div_fin, ha, JSNum.isFinite]
    · by_cases hpos : 0 < a <;> simp [fin_div_fin, ha, hpos, JSNum.isFinite, JSNum.signedInf]
  | posInf => rfl
  | negInf => rfl
  | nan => rfl

/-- A product with a factor that is not finite is not finite. -/
theorem mul_not_finite (x y : JSNum) (h : JSNum.isFinite x = false) :
    JSNum.isFinite (x * y) = false := by
  have hs : ∀ b : Bool, JSNum.isFinite (JSNum.signedInf b) = false := by
    intro b
    cases b <;> rfl
  have hm : x * y = JSNum.mul x y := rfl
  rw [hm]
  cases x with
  | fin a => simp [JSNum.isFinite] at h
  | posInf =>
    cases y with
    | fin b =>
      by_cases hb : b = 0
      · simp [JSNum.mul, hb, JSNum.isFinite]
      · simp [JSNum.mul, hb, hs]
    | _ => rfl
  | negInf =>
    cases y with
    | fin b =>
      by_cases hb : b = 0
      · simp [JSNum.mul, hb, JSNum.isFinite]
      · simp [JSNum.mul, hb, hs]
    | _ => rfl
  | nan => cases y <;> rfl

theorem get_set (p : Parameters) (name other : ParamName) (v : JSNum) :
    (p.set name v).get other = if other = name then v else p.get other := by
  cases name <;> cases other <;> simp [Parameters.set, Parameters.get]

/-- A number `> 0` is `>= 0`. -/
theorem ge_zero_of_gt_zero (a : JSNum) (h : JSNum.gt a 0 = true) : JSNum.ge a 0 = true := by
  cases a <;> simp_all [JSNum.gt, JSNum.ge]
  exact le_of_lt h

theorem nonNegative_constructor : NonNegative constructor := by
  refine ⟨by norm_num [constructor, JSNum.ge], ?_⟩
  intro name
  cases name <;> norm_num [constructor, defaultParams, Parameters.get, JSNum.ge]

theorem nonNegative_inputHandler (s : InvestmentCalculator) (e : FieldEvent)
    (h : NonNegative s) : NonNegative (inputHandler s e) := by
  obtain ⟨param, value, min, max⟩ := e
  by_cases hc : JSNum.isNaN value = false ∧ JSNum.ge value (fin 0) = true
  · have hset : ∀ name other : ParamName,
        JSNum.ge ((s.params.set name value).get other) 0 = true := by
      intro name other
      rw [get_set]
      split
      · exact hc.2
      · exact h.2 other
    cases param with
    | none => simpa [inputHandler, hc] using h
    | some name =>
      by_cases hp : name = ParamName.copperPriceLME
      · subst hp
        refine ⟨?_, ?_⟩
        · simp [inputHandler, hc]
        · intro other
          simpa [inputHandler, hc] using hset ParamName.copperPriceLME other
      · refine ⟨?_, ?_⟩
        · simpa [inputHandler, hc, hp] using h.1
        · intro other
          simpa [inputHandler, hc, hp] using hset name other
  · simpa [inputHandler, hc] using h

theorem nonNegative_reset (s : InvestmentCalculator) (h : NonNegative s) :
    NonNegative (reset s) := by
  refine ⟨h.1, ?_⟩
  intro name
  cases name
  · exact h.1
  all_goals norm_num [reset, Parameters.get, JSNum.ge]

theorem nonNegative_fetchCopperPrice (s : InvestmentCalculator) (outcome : FetchOutcome)
    (h : NonNegative s) : NonNegative (fetchCopperPrice s outcome) := by
  have hwith : ∀ v : JSNum, JSNum.ge v 0 = true → ∀ other : ParamName,
      JSNum.ge (({ s.params with copperPriceLME := v } : Parameters).get other) 0 = true := by
    intro v hv other
    have hs : ({ s.params with copperPriceLME := v } : Parameters)
        = s.params.set ParamName.copperPriceLME v := rfl
    rw [hs, get_set]
    split
    · exact hv
    · exact h.2 other
  cases outcome with
  | threw =>
    have h13 : JSNum.ge (13200 : JSNum) 0 = true := by norm_num [JSNum.ge]
    exact ⟨h13, hwith 13200 h13⟩
  | notOk => exact h
  | quote q =>
    cases hgt : JSNum.gt (JSNum.round (q * 2204.62)) 0 with
    | true =>
      rw [fetchCopperPrice_quote s q hgt]
      exact ⟨ge_zero_of_gt_zero _ hgt, hwith _ (ge_zero_of_gt_zero _ hgt)⟩
    | false =>
      have hq : fetchCopperPrice s (FetchOutcome.quote q) = { s with isLoading := false } := by
        simp only [fetchCopperPrice, fetchCopperPriceEnd, fetchCopperPriceBegin, hgt,
          Bool.and_false]
        rfl
      rw [hq]
      exact h

/-! ## Claims C11 to C20 -/

/-- C11. For a field with a numeric minimum `min` and either no maximum (`max` is
NaN) or `min <= max`, a blur edit whose value is a number below `min` stores
exactly `min` in the field's parameter and leaves the other parameters as they
were. -/
theorem blurHandler_clamps_to_min (self : InvestmentCalculator) (name : ParamName)
    (value min max : JSNum) (hlt : JSNum.lt value min = true)
    (hmax : max = nan ∨ JSNum.le min max = true) :
    (blurHandler self ⟨some name, value, min, max⟩).params.get name = min ∧
    (blurHandler self ⟨some name, value, min, max⟩).params = self.params.set name min := by
  have hskip : (JSNum.truthy max && JSNum.gt min max) = false := by
    rcases hmax with h | h
    · subst h
      rfl
    · rw [gt_eq_false_of_le min max h, Bool.and_false]
  have hp : (blurHandler self ⟨some name, value, min, max⟩).params = self.params.set name min := by
    rw [blurHandler_params, hlt]
    simp [hskip]
  exact ⟨by rw [hp, get_set_same], hp⟩

/-- Witness for C11: the recovery rate field with bounds 0 and 100, left with the
text `-5`. -/
theorem blurHandler_clamps_to_min_witness :
    (blurHandler constructor ⟨some ParamName.recoveryRate, fin (-5), 0, 100⟩).params.get
        ParamName.recoveryRate = 0 ∧
    (blurHandler constructor ⟨some ParamName.recoveryRate, fin (-5), 0, 100⟩).params
      = constructor.params.set ParamName.recoveryRate 0 :=
  blurHandler_clamps_to_min constructor ParamName.recoveryRate (fin (-5)) 0 100
    (by simp [JSNum.lt]) (Or.inr (by simp [JSNum.le]))

/-- C12, evaluation at a maximum of zero: on a field with `min = -10` and
`max = 0`, a blur edit with the value 5, which is above the maximum, stores 5 and
not 0, because the test `max && value > max` reads the maximum 0 as absent. -/
theorem blurHandler_max_zero_not_clamped :
    JSNum.gt 5 0 = true ∧ JSNum.le (fin (-10)) 0 = true ∧
    (blurHandler constructor ⟨some ParamName.treatmentCharge, 5, fin (-10), 0⟩).params.get
        ParamName.treatmentCharge = 5 ∧
    (blurHandler constructor ⟨some ParamName.treatmentCharge, 5, fin (-10), 0⟩).params.get
        ParamName.treatmentCharge ≠ 0 := by
  have h : (blurHandler constructor ⟨some ParamName.treatmentCharge, 5, fin (-10), 0⟩).params
      = constructor.params.set ParamName.treatmentCharge 5 := by
    rw [blurHandler_params]
    simp [JSNum.lt, JSNum.truthy]
    norm_num
  rw [h, get_set_same]
  refine ⟨by simp, by simp [JSNum.le], rfl, ?_⟩
  simp

/-- C13, counterexample: an `input` event of the recovery rate field, bounds 0 and
100, with the value 500 stores 500, which is above the maximum and is not the
nearest bound. -/
theorem inputHandler_stores_out_of_bounds :
    (inputHandler constructor ⟨some ParamName.recoveryRate, 500, 0, 100⟩).params.recoveryRate
      = 500 ∧
    JSNum.gt
      (inputHandler constructor ⟨some ParamName.recoveryRate, 500, 0, 100⟩).params.recoveryRate
      100 = true ∧
    (inputHandler constructor ⟨some ParamName.recoveryRate, 500, 0, 100⟩).params.recoveryRate
      ≠ 100 := by
  have h : (inputHandler constructor
      ⟨some ParamName.recoveryRate, 500, 0, 100⟩).params.recoveryRate = 500 := by
    simp [inputHandler, JSNum.isNaN, Parameters.set]
  rw [h]
  refine ⟨rfl, by norm_num [JSNum.gt], by simp⟩

/-- C13 as amended. The `input` listener never clamps: a value that is a number
`>= 0` is stored unchanged in the field's parameter, whatever `min` and `max`
are; a value that is NaN or not `>= 0` leaves the calculator unchanged. -/
theorem inputHandler_stores_unclamped (self : InvestmentCalculator) (e : FieldEvent) :
    (JSNum.ge e.value 0 = true → ∀ name, e.param = some name →
      (inputHandler self e).params = self.params.set name e.value ∧
      (inputHandler self e).params.get name = e.value) ∧
    ((JSNum.isNaN e.value = true ∨ JSNum.ge e.value 0 = false) → inputHandler self e = self) := by
  obtain ⟨param, value, min, max⟩ := e
  constructor
  · intro hge name hname
    simp only at hge hname
    subst hname
    have hnan : JSNum.isNaN value = false := by
      cases value with
      | nan => simp [JSNum.ge] at hge
      | _ => rfl
    have hp : (inputHandler self ⟨some name, value, min, max⟩).params
        = self.params.set name value := by
      simp only [inputHandler, hnan, hge, Bool.not_false, Bool.and_self, if_true]
      split <;> rfl
    exact ⟨hp, by rw [hp, get_set_same]⟩
  · intro h
    have hcond : (!JSNum.isNaN value && JSNum.ge value 0) = false := by
      rcases h with h | h
      · simp only at h
        rw [h]
        rfl
      · simp only at h
        rw [h, Bool.and_false]
    simp only [inputHandler, hcond]
    rfl

/-- Witness for C13 as amended: the value 500 typed into the recovery rate field,
bounds 0 and 100. -/
theorem inputHandler_stores_unclamped_witness :
    (inputHandler constructor ⟨some ParamName.recoveryRate, 500, 0, 100⟩).params
      = constructor.params.set ParamName.recoveryRate 500 ∧
    (inputHandler constructor ⟨some ParamName.recoveryRate, 500, 0, 100⟩).params.get
        ParamName.recoveryRate = 500 :=
  (inputHandler_stores_unclamped constructor ⟨some ParamName.recoveryRate, 500, 0, 100⟩).1
    (by simp) ParamName.recoveryRate rfl

/-- C14, evaluation at two blur edits from the constructor's defaults: leaving the
recovery rate field (bounds 0 and 100) with empty text stores NaN, and leaving a
field without bounds with the text `-5` stores -5; neither stored value is
`>= 0`. -/
theorem blurHandler_stores_nan_and_negative :
    (applyEdits constructor
      [Edit.blur ⟨some ParamName.recoveryRate, nan, 0, 100⟩]).params.recoveryRate = nan ∧
    JSNum.ge nan 0 = false ∧
    (applyEdits constructor
      [Edit.blur ⟨some ParamName.recoveryRate, fin (-5), nan, nan⟩]).params.recoveryRate
        = fin (-5) ∧
    JSNum.ge (fin (-5)) 0 = false := by
  refine ⟨?_, rfl, ?_, by simp⟩
  · simp [applyEdits, applyEdit, blurHandler, JSNum.lt, JSNum.gt, JSNum.truthy, Parameters.set]
  · simp [applyEdits, applyEdit, blurHandler, JSNum.lt, JSNum.gt, JSNum.truthy, Parameters.set]

/-- C15. After `reset`, whatever the state before, every parameter other than
`copperPriceLME` has its fixed default, and the parameters are those the
constructor installs with `copperPriceLME` replaced by the current
`copperPrice`. -/
theorem reset_params_defaults (self : InvestmentCalculator) :
    ((reset self).params.explorationAcres = 1500 ∧
     (reset self).params.explorationCostPerAcre = 667 ∧
     (reset self).params.excavationCost = 85 ∧
     (reset self).params.processingCost = 50 ∧
     (reset self).params.plantCapacity = 350 ∧
     (reset self).params.operatingDays = 300 ∧
     (reset self).params.rawCopperPercentage = 2.5 ∧
     (reset self).params.recoveryRate = 88 ∧
     (reset self).params.finalProductPercentage = 18 ∧
     (reset self).params.lmePayableRate = 96.5 ∧
     (reset self).params.treatmentCharge = 80 ∧
     (reset self).params.wasteDisposalCharge = 5 ∧
     (reset self).params.totalInvestment = 6600000) ∧
    (reset self).params = { constructor.params with copperPriceLME := self.copperPrice } :=
  ⟨⟨rfl, rfl, rfl, rfl, rfl, rfl, rfl, rfl, rfl, rfl, rfl, rfl, rfl⟩, rfl⟩

/-- C16, evaluation at a typed price: a fetch installs the live price 11023, the
user then types 9000 into the copper price field, and `reset` is run.  The input
listener has overwritten `copperPrice`, the only place the fetched price was kept,
so `reset` leaves `copperPriceLME` and `copperPrice` at the typed 9000 and not at
the live price 11023. -/
theorem reset_keeps_typed_price :
    (fetchCopperPrice constructor (FetchOutcome.quote 5)).copperPrice = 11023 ∧
    (reset (applyEdits (fetchCopperPrice constructor (FetchOutcome.quote 5))
      [Edit.input ⟨some ParamName.copperPriceLME, 9000, nan, nan⟩])).params.copperPriceLME
        = 9000 ∧
    (reset (applyEdits (fetchCopperPrice constructor (FetchOutcome.quote 5))
      [Edit.input ⟨some ParamName.copperPriceLME, 9000, nan, nan⟩])).copperPrice = 9000 ∧
    (9000 : JSNum) ≠ 11023 := by
  refine ⟨?_, ?_, ?_, by simp⟩
  · simp [fetchCopperPrice, fetchCopperPriceEnd, fetchCopperPriceBegin, JSNum.round,
      JSNum.truthy]
    norm_num
  · simp [reset, applyEdits, applyEdit, inputHandler, JSNum.isNaN]
  · simp [reset, applyEdits, applyEdit, inputHandler, JSNum.isNaN]

theorem quote_five_positive : JSNum.gt (JSNum.round (5 * 2204.62)) 0 = true := by
  simp [JSNum.round]
  norm_num

/-- C17. `reset` is idempotent: a second `reset` changes nothing, so the
parameters after two resets are those after one, and `reset` leaves `copperPrice`
as it was. -/
theorem reset_idempotent (self : InvestmentCalculator) :
    (reset (reset self)).params = (reset self).params ∧
    (reset self).copperPrice = self.copperPrice ∧
    reset (reset self) = reset self :=
  ⟨rfl, rfl, rfl⟩

/-- C18. On a response that is `ok` with a quote `q` such that
`Math.round(q * 2204.62) > 0`, `fetchCopperPrice` sets `copperPrice` and
`copperPriceLME` to `Math.round(q * 2204.62)` and leaves the other parameters
unchanged; for a finite `q` that price is an integer within one half of
`q * 2204.62`. -/
theorem fetchCopperPrice_success (self : InvestmentCalculator) (q : JSNum)
    (h : JSNum.gt (JSNum.round (q * 2204.62)) 0 = true) :
    (fetchCopperPrice self (FetchOutcome.quote q)).copperPrice = JSNum.round (q * 2204.62) ∧
    (fetchCopperPrice self (FetchOutcome.quote q)).params
      = { self.params with copperPriceLME := JSNum.round (q * 2204.62) } ∧
    (∀ a : ℚ, q = fin a →
      ∃ n : ℤ, JSNum.round (q * 2204.62) = fin n ∧ |(n : ℚ) - a * 2204.62| ≤ 1 / 2) := by
  rw [fetchCopperPrice_quote self q h]
  refine ⟨rfl, rfl, ?_⟩
  intro a ha
  subst ha
  refine ⟨⌊a * 2204.62 + 1 / 2⌋, by simp [JSNum.round], ?_⟩
  have h1 := Int.floor_le (a * 2204.62 + 1 / 2)
  have h2 := Int.lt_floor_add_one (a * 2204.62 + 1 / 2)
  rw [abs_le]
  constructor <;> linarith

/-- Witness for C18: the quote 5 dollars per pound in the constructor's state. -/
theorem fetchCopperPrice_success_witness :
    (fetchCopperPrice constructor (FetchOutcome.quote 5)).copperPrice
      = JSNum.round (5 * 2204.62) ∧
    (fetchCopperPrice constructor (FetchOutcome.quote 5)).params
      = { constructor.params with copperPriceLME := JSNum.round (5 * 2204.62) } ∧
    (∀ a : ℚ, (5 : JSNum) = fin a →
      ∃ n : ℤ, JSNum.round (5 * 2204.62) = fin n ∧ |(n : ℚ) - a * 2204.62| ≤ 1 / 2) :=
  fetchCopperPrice_success constructor 5 quote_five_positive

/-- C19. `fetchCopperPrice` always ends with a state: a response that is not `ok`,
and a quote whose rounded price is not `> 0` (zero, negative or NaN), leave
`copperPrice` and the parameters as they were; a thrown error sets `copperPrice`
and `copperPriceLME` to 13200; in every outcome `isLoading` ends false, and
`copperPrice` is `> 0` afterwards whenever it was before. -/
theorem fetchCopperPrice_failure_safe (self : InvestmentCalculator) (outcome : FetchOutcome) :
    ((fetchCopperPrice self FetchOutcome.notOk).copperPrice = self.copperPrice ∧
     (fetchCopperPrice self FetchOutcome.notOk).params = self.params) ∧
    (∀ q : JSNum, JSNum.gt (JSNum.round (q * 2204.62)) 0 = false →
      (fetchCopperPrice self (FetchOutcome.quote q)).copperPrice = self.copperPrice ∧
      (fetchCopperPrice self (FetchOutcome.quote q)).params = self.params) ∧
    ((fetchCopperPrice self FetchOutcome.threw).copperPrice = 13200 ∧
     (fetchCopperPrice self FetchOutcome.threw).params
       = { self.params with copperPriceLME := 13200 }) ∧
    (fetchCopperPrice self outcome).isLoading = false ∧
    (JSNum.gt self.copperPrice 0 = true →
      JSNum.gt (fetchCopperPrice self outcome).copperPrice 0 = true) := by
  have hq : ∀ q : JSNum, JSNum.gt (JSNum.round (q * 2204.62)) 0 = false →
      fetchCopperPrice self (FetchOutcome.quote q) = { self with isLoading := false } := by
    intro q hq
    simp only [fetchCopperPrice, fetchCopperPriceEnd, fetchCopperPriceBegin, hq, Bool.and_false]
    rfl
  refine ⟨⟨rfl, rfl⟩, ?_, ⟨rfl, rfl⟩, ?_, ?_⟩
  · intro q h
    rw [hq q h]
    exact ⟨rfl, rfl⟩
  · cases outcome with
    | threw => rfl
    | notOk => rfl
    | quote q =>
      simp only [fetchCopperPrice, fetchCopperPriceEnd]
  · intro hpos
    cases outcome with
    | threw =>
      have h13 : (fetchCopperPrice self FetchOutcome.threw).copperPrice = 13200 := rfl
      rw [h13]
      norm_num [JSNum.gt]
    | notOk => exact hpos
    | quote q =>
      cases hgt : JSNum.gt (JSNum.round (q * 2204.62)) 0 with
      | true =>
        rw [fetchCopperPrice_quote self q hgt]
        exact hgt
      | false =>
        rw [hq q hgt]
        exact hpos

theorem quote_zero_not_positive : JSNum.gt (JSNum.round (0 * 2204.62)) 0 = false := by
  simp [JSNum.round]
  norm_num

/-- Witness for C19: a quote of zero in the constructor's state changes neither
the price nor the parameters. -/
theorem fetchCopperPrice_failure_safe_witness :
    (fetchCopperPrice constructor (FetchOutcome.quote 0)).copperPrice = constructor.copperPrice ∧
    (fetchCopperPrice constructor (FetchOutcome.quote 0)).params = constructor.params :=
  (fetchCopperPrice_failure_safe constructor FetchOutcome.notOk).2.1 0 quote_zero_not_positive

/-- C20. `calculate` is a total function of the parameters, whatever numbers they
hold.  A zero denominator gives a field that is not finite: `concentrateProduced`
when `finalProductPercentage` is 0, `roi` when `totalInvestment` is 0,
`profitPerTonOre` when `annualProcessing` is 0 and `profitPerTonCopper` when
`recoveredCopper` is 0.  On finite parameters the figures that use none of these
denominators keep their exact values whether or not a denominator is zero, and
when `finalProductPercentage` is not 0 the figures from `concentrateProduced` to
`netProfit` and `paybackMonths` are finite even if the other denominators are
zero. -/
theorem calculate_total (self : InvestmentCalculator) :
    (self.params.finalProductPercentage = 0 →
      JSNum.isFinite (calculate self).concentrateProduced = false) ∧
    (self.params.totalInvestment = 0 → JSNum.isFinite (calculate self).roi = false) ∧
    ((calculate self).annualProcessing = 0 →
      JSNum.isFinite (calculate self).profitPerTonOre = false) ∧
    ((calculate self).recoveredCopper = 0 →
      JSNum.isFinite (calculate self).profitPerTonCopper = false) ∧
    (∀ P : FiniteParameters, self.params = P.toParameters →
      ((calculate self).annualProcessing = fin (P.plantCapacity * P.operatingDays) ∧
       (calculate self).rawCopperInOre
         = fin (P.plantCapacity * P.operatingDays * (P.rawCopperPercentage / 100)) ∧
       (calculate self).recoveredCopper
         = fin (P.plantCapacity * P.operatingDays * (P.rawCopperPercentage / 100)
             * (P.recoveryRate / 100)) ∧
       (calculate self).payableCopper
         = fin (P.plantCapacity * P.operatingDays * (P.rawCopperPercentage / 100)
             * (P.recoveryRate / 100) * (P.lmePayableRate / 100)) ∧
       (calculate self).grossRevenue
         = fin (P.plantCapacity * P.operatingDays * (P.rawCopperPercentage / 100)
             * (P.recoveryRate / 100) * (P.lmePayableRate / 100) * P.copperPriceLME) ∧
       (calculate self).wasteDisposalCharges
         = fin (P.plantCapacity * P.operatingDays * P.wasteDisposalCharge) ∧
       (calculate self).annualExcavationProcessingCosts
         = fin (P.plantCapacity * P.operatingDays * (P.excavationCost + P.processingCost)) ∧
       (calculate self).totalOperatingCosts
         = fin (P.plantCapacity * P.operatingDays * (P.excavationCost + P.processingCost))) ∧
      (P.finalProductPercentage ≠ 0 →
        JSNum.isFinite (calculate self).concentrateProduced = true ∧
        JSNum.isFinite (calculate self).treatmentCharges = true ∧
        JSNum.isFinite (calculate self).totalTCWD = true ∧
        JSNum.isFinite (calculate self).netRevenue = true ∧
        JSNum.isFinite (calculate self).netProfit = true ∧
        JSNum.isFinite (calculate self).paybackMonths = true)) := by
  have r1 : (calculate self).concentrateProduced
      = (calculate self).recoveredCopper / (self.params.finalProductPercentage / 100) := rfl
  have r2 : (calculate self).roi
      = ((calculate self).netProfit / self.params.totalInvestment) * 100 := rfl
  have r3 : (calculate self).profitPerTonOre
      = (calculate self).netProfit / (calculate self).annualProcessing := rfl
  have r4 : (calculate self).profitPerTonCopper
      = (calculate self).netProfit / (calculate self).recoveredCopper := rfl
  have r5 : (calculate self).paybackMonths
      = if JSNum.gt (calculate self).netProfit 0
          then (self.params.totalInvestment / (calculate self).netProfit) * 12 else 0 := rfl
  have hz : (0 : JSNum) = fin 0 := rfl
  refine ⟨?_, ?_, ?_, ?_, ?_⟩
  · intro h
    have h0 : (fin 0 : JSNum) / 100 = fin 0 := by
      rw [ofNat_eq_fin, fin_div_fin_of_ne _ hundred_ne_zero, zero_div]
    rw [r1, h, hz, h0]
    exact div_zero_not_finite _
  · intro h
    rw [r2, h, hz]
    exact mul_not_finite _ _ (div_zero_not_finite _)
  · intro h
    rw [r3, h, hz]
    exact div_zero_not_finite _
  · intro h
    rw [r4, h, hz]
    exact div_zero_not_finite _
  · intro P hP
    refine ⟨?_, ?_⟩
    · simp only [calculate, hP, FiniteParameters.toParameters, ofNat_eq_fin, fin_mul_fin,
        fin_add_fin, fin_div_fin_of_ne _ hundred_ne_zero, and_self]
    · intro hfpp
      obtain ⟨ap, raw, rc, conc, pay, opc, gross, tc, wd, tcwd, nrev, np,
        ⟨-, -, -, f4, -, -, -, -, f9, -, f11, f12, f13⟩, -⟩ := calculate_finite self P hP hfpp
      have hT : self.params.totalInvestment = fin P.totalInvestment := by rw [hP]; rfl
      refine ⟨by rw [f4]; rfl, by rw [f9]; rfl, by rw [f11]; rfl, by rw [f12]; rfl,
        by rw [f13]; rfl, ?_⟩
      rw [r5, f13, hT]
      by_cases hpos : 0 < np
      · have hg : JSNum.gt (fin np) 0 = true := by simpa using hpos
        rw [if_pos hg, fin_div_fin_of_ne _ (ne_of_gt hpos), ofNat_eq_fin, fin_mul_fin]
        rfl
      · have hg : JSNum.gt (fin np) 0 = false := by simpa using hpos
        rw [hg]
        rfl

/-- Witness for C20: the default parameters with a concentrate grade of zero. -/
theorem calculate_total_witness :
    JSNum.isFinite
      (calculate ⟨13200, false,
        { defaultParams with finalProductPercentage := 0 }⟩).concentrateProduced = false :=
  (calculate_total ⟨13200, false, { defaultParams with finalProductPercentage := 0 }⟩).1 rfl

/-! ## Display, formatting and relations between results -/

/-- After `init` the page shows the results of the current parameters. -/
theorem init_displayed (pg : Page) (outcome : FetchOutcome) :
    (init pg outcome).displayed = some (calculate (init pg outcome).calculator) := rfl

theorem quote_four_positive : JSNum.gt (JSNum.round (4 * 2204.62)) 0 = true := by
  simp [JSNum.round]
  norm_num

theorem quote_four_price : JSNum.round (4 * 2204.62) = fin 8818 := by
  simp [JSNum.round]
  norm_num

theorem quote_five_price : JSNum.round (5 * 2204.62) = fin 11023 := by
  simp [JSNum.round]
  norm_num

/-- The calculator of `refreshRun` and the results object it shows. -/
theorem refreshRun_eq :
    refreshRun.calculator.params = { defaultParams with copperPriceLME := fin 8818 } ∧
    refreshRun.displayed
      = some (calculate ⟨fin 11023, true, { defaultParams with copperPriceLME := fin 11023 }⟩) := by
  have h5 : fetchCopperPrice constructor (FetchOutcome.quote 5)
      = ⟨fin 11023, false, { defaultParams with copperPriceLME := fin 11023 }⟩ := by
    rw [fetchCopperPrice_quote _ _ quote_five_positive, quote_five_price]
    rfl
  have h4 : ∀ s : InvestmentCalculator, fetchCopperPriceEnd s (FetchOutcome.quote 4)
      = ⟨fin 8818, false, { s.params with copperPriceLME := fin 8818 }⟩ := by
    intro s
    have hg : JSNum.gt (fin 8818) 0 = true := by
      rw [← quote_four_price]
      exact quote_four_positive
    have ht := truthy_of_gt_zero _ hg
    simp only [fetchCopperPriceEnd, quote_four_price, ht, hg, Bool.and_self, if_true]
  simp only [refreshRun, init, priceRefreshTick, priceRefreshSettled, runCalculate, h5, h4,
    fetchCopperPriceBegin]
  refine ⟨?_, ?_⟩ <;> first | rfl | trivial

theorem abs_fin (a : ℚ) : JSNum.abs (fin a) = fin |a| := rfl

theorem million_ne_zero : (1000000 : ℚ) ≠ 0 := by norm_num

/-- The two branches of `fmtCurrency` on a finite value. -/
theorem fmtCurrency_fin (v : ℚ) :
    fmtCurrency (fin v)
      = if 1000000 ≤ |v| then "$" ++ fmt (fin (v / 1000000)) 2 ++ "M" else "$" ++ fmt (fin v) 0 := by
  simp only [fmtCurrency, abs_fin, ofNat_eq_fin, ge_fin_fin, decide_eq_true_eq,
    fin_div_fin_of_ne _ million_ne_zero]

/-- With no fraction digits `fmt` writes the nearest integer in full, grouped in
threes. -/
theorem fmt_zero_decimals (v : ℚ) (h : 0 ≤ v) :
    fmt (fin v) 0
      = String.mk (insertCommas (Nat.toDigits 10 (⌊v + 1 / 2⌋).toNat).reverse).reverse := by
  have hneg : ¬ v < 0 := not_lt.mpr h
  simp [fmt, hneg, abs_of_nonneg h]

/-- With two fraction digits `fmt` writes the value rounded to hundredths: the
grouped integer part, a point, and the two digits of the hundredths. -/
theorem fmt_two_decimals (v : ℚ) (h : 0 ≤ v) :
    fmt (fin v) 2
      = String.mk (insertCommas (Nat.toDigits 10 ((⌊v * 100 + 1 / 2⌋).toNat / 100)).reverse).reverse
        ++ ("." ++ String.mk (padDigits 2 ((⌊v * 100 + 1 / 2⌋).toNat % 100))) := by
  have hneg : ¬ v < 0 := not_lt.mpr h
  simp [fmt, hneg, abs_of_nonneg h]
  norm_num

theorem padDigits_two_length (n : ℕ) : (padDigits 2 (n % 100)).length = 2 := by
  have h : n % 100 < 100 := Nat.mod_lt _ (by norm_num)
  generalize n % 100 = m at h
  interval_cases m <;> rfl

/-- The results depend on the parameters only. -/
theorem calculate_congr (s₁ s₂ : InvestmentCalculator) (h : s₁.params = s₂.params) :
    calculate s₁ = calculate s₂ := by
  obtain ⟨c₁, l₁, p₁⟩ := s₁
  obtain ⟨c₂, l₂, p₂⟩ := s₂
  simp only at h
  subst h
  rfl

/-- The cached price and the price parameter agree in the constructor's state. -/
theorem price_synced_constructor : constructor.copperPrice = constructor.params.copperPriceLME :=
  rfl

/-- The input listener keeps the cached price and the price parameter equal. -/
theorem price_synced_inputHandler (s : InvestmentCalculator) (e : FieldEvent)
    (h : s.copperPrice = s.params.copperPriceLME) :
    (inputHandler s e).copperPrice = (inputHandler s e).params.copperPriceLME := by
  obtain ⟨param, value, min, max⟩ := e
  by_cases hc : JSNum.isNaN value = false ∧ JSNum.ge value (fin 0) = true
  · cases param with
    | none => simpa [inputHandler, hc] using h
    | some name => cases name <;> simp [inputHandler, hc, Parameters.set, h]
  · simpa [inputHandler, hc] using h

/-- After `reset` the cached price and the price parameter are equal. -/
theorem price_synced_reset (s : InvestmentCalculator) :
    (reset s).copperPrice = (reset s).params.copperPriceLME := rfl

/-- A price fetch keeps the cached price and the price parameter equal. -/
theorem price_synced_fetchCopperPrice (s : InvestmentCalculator) (outcome : FetchOutcome)
    (h : s.copperPrice = s.params.copperPriceLME) :
    (fetchCopperPrice s outcome).copperPrice
      = (fetchCopperPrice s outcome).params.copperPriceLME := by
  cases outcome with
  | threw => rfl
  | notOk => exact h
  | quote q =>
    cases hgt : JSNum.gt (JSNum.round (q * 2204.62)) 0 with
    | true => rw [fetchCopperPrice_quote s q hgt]
    | false =>
      have hq : fetchCopperPrice s (FetchOutcome.quote q) = { s with isLoading := false } := by
        simp only [fetchCopperPrice, fetchCopperPriceEnd, fetchCopperPriceBegin, hgt,
          Bool.and_false]
        rfl
      rw [hq]
      exact h

/-! ## Claims C21 to C30 -/

/-- C21, evaluation at a firing of the refresh timer: after `init` with the quote
5 (price 11023), the timer fires and its request settles with the quote 4.  The
price parameter is then 8818, but the page still shows the results computed when
the timer fired, with the gross revenue of the price 11023, and no recomputation
follows the end of the fetch. -/
theorem priceRefresh_shows_stale_result :
    refreshRun.calculator.params.copperPriceLME = fin 8818 ∧
    refreshRun.displayed.map Result.grossRevenue = some (fin 24571920.45) ∧
    (calculate refreshRun.calculator).grossRevenue = fin 19656644.7 ∧
    refreshRun.displayed ≠ some (calculate refreshRun.calculator) := by
  obtain ⟨hp, hd⟩ := refreshRun_eq
  have hshown : refreshRun.displayed.map Result.grossRevenue = some (fin 24571920.45) := by
    rw [hd]
    simp [calculate, defaultParams]
    norm_num
  have hcur : calculate refreshRun.calculator
      = calculate ⟨fin 8818, false, { defaultParams with copperPriceLME := fin 8818 }⟩ :=
    calculate_congr _ _ hp
  have hnow : (calculate refreshRun.calculator).grossRevenue = fin 19656644.7 := by
    rw [hcur]
    simp [calculate, defaultParams]
    norm_num
  refine ⟨by rw [hp], hshown, hnow, ?_⟩
  intro heq
  rw [heq] at hshown
  simp only [Option.map_some', hnow, Option.some.injEq, JSNum.fin.injEq] at hshown
  norm_num at hshown

/-- C22, counterexample: the value 525000, between 1000 and 1000000, is shown as
`$525,000` and not as `$525K`. -/
theorem fmtCurrency_thousands_in_full :
    fmtCurrency 525000 = "$525,000" ∧ fmtCurrency 525000 ≠ "$525K" := by
  have h : fmtCurrency 525000 = "$525,000" := by
    rw [ofNat_eq_fin, fmtCurrency_fin, if_neg (by norm_num [abs_of_nonneg]),
      fmt_zero_decimals _ (by norm_num)]
    norm_num
    decide
  rw [h]
  exact ⟨rfl, by decide⟩

/-- C22 as amended. `fmtCurrency` shows a value `>= 1000000` as `$`, the value
divided by 1000000 and rounded to exactly two decimals, and `M`; it shows a value
from 0 up to 1000000, so also one between 1000 and 1000000, as `$` and the nearest
integer written in full with commas between groups of three digits, without any
`K`. -/
theorem fmtCurrency_spec (v : ℚ) :
    (1000000 ≤ v →
      fmtCurrency (fin v)
        = "$" ++ (String.mk (insertCommas (Nat.toDigits 10
              ((⌊v / 1000000 * 100 + 1 / 2⌋).toNat / 100)).reverse).reverse
            ++ ("." ++ String.mk (padDigits 2 ((⌊v / 1000000 * 100 + 1 / 2⌋).toNat % 100))))
          ++ "M" ∧
      (padDigits 2 ((⌊v / 1000000 * 100 + 1 / 2⌋).toNat % 100)).length = 2) ∧
    (0 ≤ v → v < 1000000 →
      fmtCurrency (fin v)
        = "$" ++ String.mk (insertCommas (Nat.toDigits 10 (⌊v + 1 / 2⌋).toNat).reverse).reverse) := by
  constructor
  · intro h
    have h0 : (0 : ℚ) ≤ v := le_trans (by norm_num) h
    have habs : (1000000 : ℚ) ≤ |v| := by rwa [abs_of_nonneg h0]
    have hq : (0 : ℚ) ≤ v / 1000000 := by positivity
    rw [fmtCurrency_fin, if_pos habs, fmt_two_decimals _ hq]
    exact ⟨rfl, padDigits_two_length _⟩
  · intro h0 h
    have habs : ¬ (1000000 : ℚ) ≤ |v| := by
      rw [abs_of_nonneg h0]
      exact not_le.mpr h
    rw [fmtCurrency_fin, if_neg habs, fmt_zero_decimals _ h0]

/-- Witness for C22 as amended: the value 525000. -/
theorem fmtCurrency_spec_witness :
    fmtCurrency (fin 525000)
      = "$" ++ String.mk
          (insertCommas (Nat.toDigits 10 (⌊(525000 : ℚ) + 1 / 2⌋).toNat).reverse).reverse :=
  (fmtCurrency_spec 525000).2 (by norm_num) (by norm_num)

/-- C23. `calculate` is a function of the parameters alone: running it changes
neither `params` nor `copperPrice` (only the displayed results), and two
calculators with equal parameters, whatever their `copperPrice` and `isLoading`,
produce the same results object. -/
theorem calculate_deterministic :
    (∀ pg : Page, (runCalculate pg).calculator = pg.calculator) ∧
    (∀ s₁ s₂ : InvestmentCalculator, s₁.params = s₂.params → calculate s₁ = calculate s₂) :=
  ⟨fun _ => rfl, calculate_congr⟩

/-- Witness for C23: the constructor's state and a state with the same parameters,
another cached price and another loading flag. -/
theorem calculate_deterministic_witness :
    calculate constructor = calculate ⟨0, false, defaultParams⟩ :=
  calculate_deterministic.2 constructor ⟨0, false, defaultParams⟩ rfl

/-- C24, evaluation at two edits of the copper price field from the constructor's
state.  With bounds 1000 and 50000, the text `500` is typed (`input` event) and
the field is left (`blur` event): the input listener sets both prices to 500, the
blur listener raises the parameter to 1000 and does not write `copperPrice`, which
stays 500.  With the field emptied and left, the blur listener stores NaN in the
parameter and `copperPrice` stays 13200. -/
theorem blurHandler_leaves_copperPrice :
    ((applyEdits constructor
      [Edit.input ⟨some ParamName.copperPriceLME, 500, 1000, 50000⟩,
       Edit.blur ⟨some ParamName.copperPriceLME, 500, 1000, 50000⟩]).copperPrice = 500 ∧
     (applyEdits constructor
      [Edit.input ⟨some ParamName.copperPriceLME, 500, 1000, 50000⟩,
       Edit.blur ⟨some ParamName.copperPriceLME, 500, 1000, 50000⟩]).params.copperPriceLME
        = 1000 ∧
     (500 : JSNum) ≠ 1000) ∧
    ((applyEdits constructor
      [Edit.input ⟨some ParamName.copperPriceLME, nan, 1000, 50000⟩,
       Edit.blur ⟨some ParamName.copperPriceLME, nan, 1000, 50000⟩]).copperPrice = 13200 ∧
     (applyEdits constructor
      [Edit.input ⟨some ParamName.copperPriceLME, nan, 1000, 50000⟩,
       Edit.blur ⟨some ParamName.copperPriceLME, nan, 1000, 50000⟩]).params.copperPriceLME
        = nan) := by
  refine ⟨⟨?_, ?_, by simp⟩, ?_, ?_⟩
  · simp [applyEdits, applyEdit, inputHandler, blurHandler, JSNum.isNaN]
  · simp [applyEdits, applyEdit, inputHandler, blurHandler, JSNum.isNaN, JSNum.lt,
      JSNum.truthy, Parameters.set]
    norm_num
  · simp [applyEdits, applyEdit, inputHandler, blurHandler, JSNum.isNaN, constructor]
  · simp [applyEdits, applyEdit, inputHandler, blurHandler, JSNum.isNaN, JSNum.lt, JSNum.gt,
      JSNum.truthy, Parameters.set]

/-- C25. On finite parameters with a non-zero `finalProductPercentage`, the year-3
fields of `calculate` equal the year-1/2 fields of `calculate` run on the same
parameters with `plantCapacity` doubled: year3Processing = annualProcessing,
year3RecoveredCopper = recoveredCopper, year3NetRevenue = netRevenue,
year3OperatingCosts = totalOperatingCosts and year3NetProfit = netProfit. -/
theorem year3_matches_doubled_capacity (s₁ s₂ : InvestmentCalculator) (P : FiniteParameters)
    (hP₁ : s₁.params = P.toParameters)
    (hP₂ : s₂.params
      = ({ P with plantCapacity := 2 * P.plantCapacity } : FiniteParameters).toParameters)
    (hfpp : P.finalProductPercentage ≠ 0) :
    (calculate s₁).year3Processing = (calculate s₂).annualProcessing ∧
    (calculate s₁).year3RecoveredCopper = (calculate s₂).recoveredCopper ∧
    (calculate s₁).year3NetRevenue = (calculate s₂).netRevenue ∧
    (calculate s₁).year3OperatingCosts = (calculate s₂).totalOperatingCosts ∧
    (calculate s₁).year3NetProfit = (calculate s₂).netProfit := by
  have h : P.finalProductPercentage / 100 ≠ 0 := div_ne_zero hfpp hundred_ne_zero
  simp only [calculate, hP₁, hP₂, FiniteParameters.toParameters, ofNat_eq_fin, fin_mul_fin,
    fin_add_fin, fin_sub_fin, fin_div_fin_of_ne _ hundred_ne_zero, fin_div_fin_of_ne _ h]
  refine ⟨?_, ?_, ?_, ?_, ?_⟩ <;> (congr 1; ring)

/-- Witness for C25: the default parameters against the default parameters with
a plant capacity of 700 tons per day. -/
theorem year3_matches_doubled_capacity_witness :
    (calculate constructor).year3Processing
      = (calculate ⟨13200, false,
          ({ defaultFiniteParams with
              plantCapacity := 2 * defaultFiniteParams.plantCapacity }
            : FiniteParameters).toParameters⟩).annualProcessing ∧
    (calculate constructor).year3RecoveredCopper
      = (calculate ⟨13200, false,
          ({ defaultFiniteParams with
              plantCapacity := 2 * defaultFiniteParams.plantCapacity }
            : FiniteParameters).toParameters⟩).recoveredCopper ∧
    (calculate constructor).year3NetRevenue
      = (calculate ⟨13200, false,
          ({ defaultFiniteParams with
              plantCapacity := 2 * defaultFiniteParams.plantCapacity }
            : FiniteParameters).toParameters⟩).netRevenue ∧
    (calculate constructor).year3OperatingCosts
      = (calculate ⟨13200, false,
          ({ defaultFiniteParams with
              plantCapacity := 2 * defaultFiniteParams.plantCapacity }
            : FiniteParameters).toParameters⟩).totalOperatingCosts ∧
    (calculate constructor).year3NetProfit
      = (calculate ⟨13200, false,
          ({ defaultFiniteParams with
              plantCapacity := 2 * defaultFiniteParams.plantCapacity }
            : FiniteParameters).toParameters⟩).netProfit :=
  year3_matches_doubled_capacity constructor _ defaultFiniteParams constructor_params rfl
    default_grade_ne_zero

/-- C26. Mass balance on finite parameters: with `plantCapacity` and
`operatingDays` non-negative and `rawCopperPercentage`, `recoveryRate` and
`lmePayableRate` between 0 and 100, `calculate` yields 0 <= payableCopper <=
recoveredCopper <= rawCopperInOre <= annualProcessing, and when moreover
0 < finalProductPercentage <= 100, concentrateProduced >= recoveredCopper. -/
theorem calculate_mass_balance (self : InvestmentCalculator) (P : FiniteParameters)
    (hP : self.params = P.toParameters)
    (hcap : 0 ≤ P.plantCapacity) (hdays : 0 ≤ P.operatingDays)
    (hraw : 0 ≤ P.rawCopperPercentage ∧ P.rawCopperPercentage ≤ 100)
    (hrec : 0 ≤ P.recoveryRate ∧ P.recoveryRate ≤ 100)
    (hlme : 0 ≤ P.lmePayableRate ∧ P.lmePayableRate ≤ 100) :
    JSNum.le 0 (calculate self).payableCopper = true ∧
    JSNum.le (calculate self).payableCopper (calculate self).recoveredCopper = true ∧
    JSNum.le (calculate self).recoveredCopper (calculate self).rawCopperInOre = true ∧
    JSNum.le (calculate self).rawCopperInOre (calculate self).annualProcessing = true ∧
    (0 < P.finalProductPercentage → P.finalProductPercentage ≤ 100 →
      JSNum.ge (calculate self).concentrateProduced (calculate self).recoveredCopper = true) := by
  have hap : 0 ≤ P.plantCapacity * P.operatingDays := mul_nonneg hcap hdays
  have hr0 : 0 ≤ P.rawCopperPercentage / 100 := div_nonneg hraw.1 (by norm_num)
  have hr1 : P.rawCopperPercentage / 100 ≤ 1 := by
    rw [div_le_one (by norm_num)]
    exact hraw.2
  have hc0 : 0 ≤ P.recoveryRate / 100 := div_nonneg hrec.1 (by norm_num)
  have hc1 : P.recoveryRate / 100 ≤ 1 := by
    rw [div_le_one (by norm_num)]
    exact hrec.2
  have hl0 : 0 ≤ P.lmePayableRate / 100 := div_nonneg hlme.1 (by norm_num)
  have hl1 : P.lmePayableRate / 100 ≤ 1 := by
    rw [div_le_one (by norm_num)]
    exact hlme.2
  have hrawq : 0 ≤ P.plantCapacity * P.operatingDays * (P.rawCopperPercentage / 100) :=
    mul_nonneg hap hr0
  have hrcq : 0 ≤ P.plantCapacity * P.operatingDays * (P.rawCopperPercentage / 100)
      * (P.recoveryRate / 100) := mul_nonneg hrawq hc0
  refine ⟨?_, ?_, ?_, ?_, ?_⟩
  · simp only [calculate, hP, FiniteParameters.toParameters, ofNat_eq_fin, fin_mul_fin,
      fin_div_fin_of_ne _ hundred_ne_zero, JSNum.le, ge_fin_fin, decide_eq_true_eq]
    exact mul_nonneg hrcq hl0
  · simp only [calculate, hP, FiniteParameters.toParameters, ofNat_eq_fin, fin_mul_fin,
      fin_div_fin_of_ne _ hundred_ne_zero, JSNum.le, ge_fin_fin, decide_eq_true_eq]
    exact mul_le_of_le_one_right hrcq hl1
  · simp only [calculate, hP, FiniteParameters.toParameters, ofNat_eq_fin, fin_mul_fin,
      fin_div_fin_of_ne _ hundred_ne_zero, JSNum.le, ge_fin_fin, decide_eq_true_eq]
    exact mul_le_of_le_one_right hrawq hc1
  · simp only [calculate, hP, FiniteParameters.toParameters, ofNat_eq_fin, fin_mul_fin,
      fin_div_fin_of_ne _ hundred_ne_zero, JSNum.le, ge_fin_fin, decide_eq_true_eq]
    exact mul_le_of_le_one_right hap hr1
  · intro hf0 hf1
    have hfpos : 0 < P.finalProductPercentage / 100 := div_pos hf0 (by norm_num)
    have hfle : P.finalProductPercentage / 100 ≤ 1 := by
      rw [div_le_one (by norm_num)]
      exact hf1
    simp only [calculate, hP, FiniteParameters.toParameters, ofNat_eq_fin, fin_mul_fin,
      fin_div_fin_of_ne _ hundred_ne_zero, fin_div_fin_of_ne _ (ne_of_gt hfpos), ge_fin_fin,
      decide_eq_true_eq]
    rw [le_div_iff₀ hfpos]
    exact mul_le_of_le_one_right hrcq hfle

theorem default_percentages :
    (0 ≤ defaultFiniteParams.rawCopperPercentage ∧ defaultFiniteParams.rawCopperPercentage ≤ 100) ∧
    (0 ≤ defaultFiniteParams.recoveryRate ∧ defaultFiniteParams.recoveryRate ≤ 100) ∧
    (0 ≤ defaultFiniteParams.lmePayableRate ∧ defaultFiniteParams.lmePayableRate ≤ 100) ∧
    0 ≤ defaultFiniteParams.plantCapacity ∧ 0 ≤ defaultFiniteParams.operatingDays := by
  norm_num [defaultFiniteParams]

/-- Witness for C26: the constructor's default state. -/
theorem calculate_mass_balance_witness :
    JSNum.le 0 (calculate constructor).payableCopper = true ∧
    JSNum.le (calculate constructor).payableCopper (calculate constructor).recoveredCopper
      = true ∧
    JSNum.le (calculate constructor).recoveredCopper (calculate constructor).rawCopperInOre
      = true ∧
    JSNum.le (calculate constructor).rawCopperInOre (calculate constructor).annualProcessing
      = true ∧
    (0 < defaultFiniteParams.finalProductPercentage →
      defaultFiniteParams.finalProductPercentage ≤ 100 →
      JSNum.ge (calculate constructor).concentrateProduced
        (calculate constructor).recoveredCopper = true) :=
  calculate_mass_balance constructor defaultFiniteParams constructor_params
    default_percentages.2.2.2.1 default_percentages.2.2.2.2 default_percentages.1
    default_percentages.2.1 default_percentages.2.2.1

/-- C27. On finite parameters with a non-zero `finalProductPercentage` and
non-negative `plantCapacity`, `operatingDays`, `rawCopperPercentage`,
`recoveryRate` and `lmePayableRate` (in particular when all fields are
non-negative), raising `copperPriceLME` and changing nothing else never lowers
`netProfit`, nor `roi` when `totalInvestment` is positive. -/
theorem netProfit_monotone_in_price (s₁ s₂ : InvestmentCalculator) (P : FiniteParameters)
    (price : ℚ) (hP₁ : s₁.params = P.toParameters)
    (hP₂ : s₂.params = ({ P with copperPriceLME := price } : FiniteParameters).toParameters)
    (hfpp : P.finalProductPercentage ≠ 0)
    (hcap : 0 ≤ P.plantCapacity) (hdays : 0 ≤ P.operatingDays)
    (hraw : 0 ≤ P.rawCopperPercentage) (hrec : 0 ≤ P.recoveryRate)
    (hlme : 0 ≤ P.lmePayableRate) (hle : P.copperPriceLME ≤ price) :
    JSNum.le (calculate s₁).netProfit (calculate s₂).netProfit = true ∧
    (0 < P.totalInvestment → JSNum.le (calculate s₁).roi (calculate s₂).roi = true) := by
  have h : P.finalProductPercentage / 100 ≠ 0 := div_ne_zero hfpp hundred_ne_zero
  have hpay : 0 ≤ P.plantCapacity * P.operatingDays * (P.rawCopperPercentage / 100)
      * (P.recoveryRate / 100) * (P.lmePayableRate / 100) :=
    mul_nonneg (mul_nonneg (mul_nonneg (mul_nonneg hcap hdays)
      (div_nonneg hraw (by norm_num))) (div_nonneg hrec (by norm_num)))
      (div_nonneg hlme (by norm_num))
  have hgross := mul_le_mul_of_nonneg_left hle hpay
  constructor
  · simp only [calculate, hP₁, hP₂, FiniteParameters.toParameters, ofNat_eq_fin, fin_mul_fin,
      fin_add_fin, fin_sub_fin, fin_div_fin_of_ne _ hundred_ne_zero, fin_div_fin_of_ne _ h,
      JSNum.le, ge_fin_fin, decide_eq_true_eq]
    linarith
  · intro hT
    simp only [calculate, hP₁, hP₂, FiniteParameters.toParameters, ofNat_eq_fin, fin_mul_fin,
      fin_add_fin, fin_sub_fin, fin_div_fin_of_ne _ hundred_ne_zero, fin_div_fin_of_ne _ h,
      fin_div_fin_of_ne _ (ne_of_gt hT), JSNum.le, ge_fin_fin, decide_eq_true_eq]
    apply mul_le_mul_of_nonneg_right _ (by norm_num)
    apply div_le_div_of_nonneg_right _ (le_of_lt hT)
    linarith

theorem default_price_le : defaultFiniteParams.copperPriceLME ≤ 15000 := by
  norm_num [defaultFiniteParams]

/-- Witness for C27: the default parameters against the default parameters with
a copper price of 15000. -/
theorem netProfit_monotone_in_price_witness :
    JSNum.le (calculate constructor).netProfit
      (calculate ⟨15000, false,
        ({ defaultFiniteParams with copperPriceLME := 15000 }
          : FiniteParameters).toParameters⟩).netProfit = true ∧
    (0 < defaultFiniteParams.totalInvestment →
      JSNum.le (calculate constructor).roi
        (calculate ⟨15000, false,
          ({ defaultFiniteParams with copperPriceLME := 15000 }
            : FiniteParameters).toParameters⟩).roi = true) :=
  netProfit_monotone_in_price constructor _ defaultFiniteParams 15000 constructor_params rfl
    default_grade_ne_zero default_percentages.2.2.2.1 default_percentages.2.2.2.2
    default_percentages.1.1 default_percentages.2.1.1 default_percentages.2.2.1.1
    default_price_le

/-- C28. Whenever `totalInvestment` is a finite positive number and `netProfit`
is a finite positive number, `roi * paybackMonths` is exactly 1200. -/
theorem roi_times_paybackMonths (self : InvestmentCalculator) (t np : ℚ)
    (hT : self.params.totalInvestment = fin t) (hnp : (calculate self).netProfit = fin np)
    (ht : 0 < t) (hpos : 0 < np) :
    (calculate self).roi * (calculate self).paybackMonths = 1200 := by
  have r1 : (calculate self).roi
      = ((calculate self).netProfit / self.params.totalInvestment) * 100 := rfl
  have r2 : (calculate self).paybackMonths
      = if JSNum.gt (calculate self).netProfit 0
          then (self.params.totalInvestment / (calculate self).netProfit) * 12 else 0 := rfl
  have hg : JSNum.gt (fin np) 0 = true := by simpa using hpos
  rw [r1, r2, hnp, hT, if_pos hg, fin_div_fin_of_ne _ (ne_of_gt ht),
    fin_div_fin_of_ne _ (ne_of_gt hpos), ofNat_eq_fin, ofNat_eq_fin, ofNat_eq_fin, fin_mul_fin,
    fin_mul_fin, fin_mul_fin]
  congr 1
  field_simp
  ring

theorem constructor_totalInvestment : constructor.params.totalInvestment = fin 6600000 := rfl

theorem constructor_netProfit : (calculate constructor).netProfit = fin (41094340 / 3) := by
  simp [calculate, constructor, defaultParams]
  norm_num

/-- Witness for C28: the constructor's default state. -/
theorem roi_times_paybackMonths_witness :
    (calculate constructor).roi * (calculate constructor).paybackMonths = 1200 :=
  roi_times_paybackMonths constructor 6600000 (41094340 / 3) constructor_totalInvestment
    constructor_netProfit (by norm_num) (by norm_num)

/-- C29. Two calculator states whose parameters differ at most in
`explorationCostPerAcre` yield the same results object, exploration cost
breakdown and total included. -/
theorem calculate_ignores_explorationCostPerAcre (s₁ s₂ : InvestmentCalculator)
    (h : s₂.params
      = { s₁.params with explorationCostPerAcre := s₂.params.explorationCostPerAcre }) :
    calculate s₂ = calculate s₁ := by
  obtain ⟨c₁, l₁, p₁⟩ := s₁
  obtain ⟨c₂, l₂, p₂⟩ := s₂
  cases p₁
  cases p₂
  simp only [Parameters.mk.injEq, true_and] at h
  obtain ⟨h1, h2, h4, h5, h6, h7, h8, h9, h10, h11, h12, h13, h14⟩ := h
  subst h1 h2 h4 h5 h6 h7 h8 h9 h10 h11 h12 h13 h14
  rfl

/-- Witness for C29: the default state against a state whose exploration cost per
acre is 0. -/
theorem calculate_ignores_explorationCostPerAcre_witness :
    calculate ⟨13200, true, { defaultParams with explorationCostPerAcre := 0 }⟩
      = calculate constructor :=
  calculate_ignores_explorationCostPerAcre constructor
    ⟨13200, true, { defaultParams with explorationCostPerAcre := 0 }⟩ rfl

end InvestmentCalculator

namespace TestimonialsCarousel

/-- The index `goTo` stores, by the three cases of its argument. -/
theorem goTo_currentIndex {α : Type} (c : TestimonialsCarousel α)
    (hn : 1 ≤ c.testimonials.length) (index : ℤ) :
    (goTo c index).currentIndex
      = if index < 0 then (c.testimonials.length : ℤ) - 1
        else if (c.testimonials.length : ℤ) ≤ index then 0 else index := by
  have hn' : (1 : ℤ) ≤ (c.testimonials.length : ℤ) := by exact_mod_cast hn
  simp only [goTo, ge_iff_le]
  by_cases h : index < 0
  · have h2 : ¬ ((c.testimonials.length : ℤ) ≤ (c.testimonials.length : ℤ) - 1) := by omega
    simp only [if_pos h, if_neg h2]
  · simp only [if_neg h]

theorem goTo_testimonials {α : Type} (c : TestimonialsCarousel α) (index : ℤ) :
    (goTo c index).testimonials = c.testimonials := rfl

/-- From an index in range, `prev` after `next` and `next` after `prev` give the
index back. -/
theorem next_prev_in_range {α : Type} (c : TestimonialsCarousel α)
    (hn : 1 ≤ c.testimonials.length)
    (h : 0 ≤ c.currentIndex ∧ c.currentIndex < (c.testimonials.length : ℤ)) :
    prev (next c) = c ∧ next (prev c) = c := by
  have hn' : (1 : ℤ) ≤ (c.testimonials.length : ℤ) := by exact_mod_cast hn
  obtain ⟨ts, i⟩ := c
  simp only at h hn'
  have key : ∀ d : TestimonialsCarousel α, d.testimonials = ts → d.currentIndex = i →
      d = ⟨ts, i⟩ := by
    intro d h1 h2
    cases d
    simp only at h1 h2
    subst h1 h2
    rfl
  constructor
  · apply key
    · rfl
    · have h1 := goTo_currentIndex (⟨ts, i⟩ : TestimonialsCarousel α) hn (i + 1)
      have h2 := goTo_currentIndex (next (⟨ts, i⟩ : TestimonialsCarousel α)) hn
        ((next (⟨ts, i⟩ : TestimonialsCarousel α)).currentIndex - 1)
      simp only [next, prev, goTo_testimonials] at h1 h2 ⊢
      rw [h2, h1]
      split_ifs <;> omega
  · apply key
    · rfl
    · have h1 := goTo_currentIndex (⟨ts, i⟩ : TestimonialsCarousel α) hn (i - 1)
      have h2 := goTo_currentIndex (prev (⟨ts, i⟩ : TestimonialsCarousel α)) hn
        ((prev (⟨ts, i⟩ : TestimonialsCarousel α)).currentIndex + 1)
      simp only [next, prev, goTo_testimonials] at h1 h2 ⊢
      rw [h2, h1]
      split_ifs <;> omega

/-- C30. For a carousel with at least one testimonial and every integer `index`,
`goTo(index)` leaves `currentIndex` in the range from 0 to n - 1: equal to
`index` when that is in range, to n - 1 when `index < 0`, and to 0 when
`index >= n`.  Hence `next` takes n - 1 to 0, `prev` takes 0 to n - 1, and from
an index in range, so also from any state reached by `goTo`, `prev` after `next`
and `next` after `prev` return to the starting state. -/
theorem goTo_in_range_and_wraps {α : Type} (c : TestimonialsCarousel α)
    (hn : 1 ≤ c.testimonials.length) (index : ℤ) :
    (0 ≤ (goTo c index).currentIndex ∧
      (goTo c index).currentIndex ≤ (c.testimonials.length : ℤ) - 1) ∧
    (0 ≤ index → index < (c.testimonials.length : ℤ) → (goTo c index).currentIndex = index) ∧
    (index < 0 → (goTo c index).currentIndex = (c.testimonials.length : ℤ) - 1) ∧
    ((c.testimonials.length : ℤ) ≤ index → (goTo c index).currentIndex = 0) ∧
    (c.currentIndex = (c.testimonials.length : ℤ) - 1 → (next c).currentIndex = 0) ∧
    (c.currentIndex = 0 → (prev c).currentIndex = (c.testimonials.length : ℤ) - 1) ∧
    (0 ≤ c.currentIndex → c.currentIndex < (c.testimonials.length : ℤ) →
      prev (next c) = c ∧ next (prev c) = c) ∧
    (prev (next (goTo c index)) = goTo c index ∧ next (prev (goTo c index)) = goTo c index) := by
  have hn' : (1 : ℤ) ≤ (c.testimonials.length : ℤ) := by exact_mod_cast hn
  have hg := goTo_currentIndex c hn index
  have hrange : 0 ≤ (goTo c index).currentIndex ∧
      (goTo c index).currentIndex < (c.testimonials.length : ℤ) := by
    rw [hg]
    split_ifs <;> omega
  refine ⟨⟨hrange.1, by omega⟩, ?_, ?_, ?_, ?_, ?_, ?_, ?_⟩
  · intro h0 h1
    rw [hg]
    split_ifs <;> omega
  · intro h0
    rw [hg, if_pos h0]
  · intro h1
    rw [hg]
    split_ifs <;> omega
  · intro h
    have h1 := goTo_currentIndex c hn (c.currentIndex + 1)
    simp only [next]
    rw [h1]
    split_ifs <;> omega
  · intro h
    have h1 := goTo_currentIndex c hn (c.currentIndex - 1)
    simp only [prev]
    rw [h1]
    split_ifs <;> omega
  · intro h0 h1
    exact next_prev_in_range c hn ⟨h0, h1⟩
  · exact next_prev_in_range (goTo c index) hn hrange

/-- Witness for C30: three testimonials, at the last one, then `next`. -/
theorem goTo_in_range_and_wraps_witness :
    (next (⟨["a", "b", "c"], 2⟩ : TestimonialsCarousel String)).currentIndex = 0 :=
  (goTo_in_range_and_wraps (⟨["a", "b", "c"], 2⟩ : TestimonialsCarousel String)
    (by decide) 0).2.2.2.2.1 (by decide)

end TestimonialsCarousel

end Mining
